import Mathlib

/-!
# Verification of the llms transformation engine

Shallow embedding of the hub-and-spoke transformation engine of the
`phosae/llms` repository: the unified intermediate representation (IR),
the three provider adapters (OpenAI, Gemini, Claude) and the
transformation registry, together with proofs settling the frozen claims
about them.

Modelling conventions:
* Go `int`/`int64` is `Int`; Go `uint` is `Nat`; the explicit Go
  conversions `uint(x)` / `int(x)` are `goUintOfInt` / `goIntOfUint`,
  which wrap modulo `2^64` exactly as Go does.
* Go `float64`/`float32` values are modelled as `Rat`: the adapters only
  copy them and compare them with zero, no claim depends on rounding, so
  the `float32`/`float64` conversions are the identity here.
* Go `interface{}` (JSON-decoded data) is the inductive `GoVal`;
  `map[string]interface{}` is `Option (List (String × GoVal))`, `none`
  standing for the nil map.
* Go slices are `List`s (`nil` slice and empty slice are both `[]`,
  no adapter distinguishes them).
* Go `error` results are `Except GoError`; functions that can only
  fail through an `interface{}` type assertion are total here because the
  embedding is typed.
-/

/-- A JSON-decoded Go `interface{}` value. -/
inductive GoVal where
  | null : GoVal
  | bool (b : Bool) : GoVal
  | num (q : Rat) : GoVal
  | str (s : String) : GoVal
  | arr (elems : List GoVal) : GoVal
  | obj (fields : List (String × GoVal)) : GoVal

mutual

/-- Decidable equality for `GoVal` (the deriving handler does not support
the nested `List` occurrences). -/
def GoVal.decEq : (a b : GoVal) → Decidable (a = b)
  | .null, .null => .isTrue rfl
  | .null, .bool _ => .isFalse (fun h => GoVal.noConfusion h)
  | .null, .num _ => .isFalse (fun h => GoVal.noConfusion h)
  | .null, .str _ => .isFalse (fun h => GoVal.noConfusion h)
  | .null, .arr _ => .isFalse (fun h => GoVal.noConfusion h)
  | .null, .obj _ => .isFalse (fun h => GoVal.noConfusion h)
  | .bool _, .null => .isFalse (fun h => GoVal.noConfusion h)
  | .bool a, .bool b =>
    if h : a = b then .isTrue (congrArg GoVal.bool h)
    else .isFalse (fun hh => h (GoVal.bool.inj hh))
  | .bool _, .num _ => .isFalse (fun h => GoVal.noConfusion h)
  | .bool _, .str _ => .isFalse (fun h => GoVal.noConfusion h)
  | .bool _, .arr _ => .isFalse (fun h => GoVal.noConfusion h)
  | .bool _, .obj _ => .isFalse (fun h => GoVal.noConfusion h)
  | .num _, .null => .isFalse (fun h => GoVal.noConfusion h)
  | .num _, .bool _ => .isFalse (fun h => GoVal.noConfusion h)
  | .num a, .num b =>
    if h : a = b then .isTrue (congrArg GoVal.num h)
    else .isFalse (fun hh => h (GoVal.num.inj hh))
  | .num _, .str _ => .isFalse (fun h => GoVal.noConfusion h)
  | .num _, .arr _ => .isFalse (fun h => GoVal.noConfusion h)
  | .num _, .obj _ => .isFalse (fun h => GoVal.noConfusion h)
  | .str _, .null => .isFalse (fun h => GoVal.noConfusion h)
  | .str _, .bool _ => .isFalse (fun h => GoVal.noConfusion h)
  | .str _, .num _ => .isFalse (fun h => GoVal.noConfusion h)
  | .str a, .str b =>
    if h : a = b then .isTrue (congrArg GoVal.str h)
    else .isFalse (fun hh => h (GoVal.str.inj hh))
  | .str _, .arr _ => .isFalse (fun h => GoVal.noConfusion h)
  | .str _, .obj _ => .isFalse (fun h => GoVal.noConfusion h)
  | .arr _, .null => .isFalse (fun h => GoVal.noConfusion h)
  | .arr _, .bool _ => .isFalse (fun h => GoVal.noConfusion h)
  | .arr _, .num _ => .isFalse (fun h => GoVal.noConfusion h)
  | .arr _, .str _ => .isFalse (fun h => GoVal.noConfusion h)
  | .arr a, .arr b =>
    match GoVal.decEqList a b with
    | .isTrue h => .isTrue (congrArg GoVal.arr h)
    | .isFalse h => .isFalse (fun hh => h (GoVal.arr.inj hh))
  | .arr _, .obj _ => .isFalse (fun h => GoVal.noConfusion h)
  | .obj _, .null => .isFalse (fun h => GoVal.noConfusion h)
  | .obj _, .bool _ => .isFalse (fun h => GoVal.noConfusion h)
  | .obj _, .num _ => .isFalse (fun h => GoVal.noConfusion h)
  | .obj _, .str _ => .isFalse (fun h => GoVal.noConfusion h)
  | .obj _, .arr _ => .isFalse (fun h => GoVal.noConfusion h)
  | .obj a, .obj b =>
    match GoVal.decEqFields a b with
    | .isTrue h => .isTrue (congrArg GoVal.obj h)
    | .isFalse h => .isFalse (fun hh => h (GoVal.obj.inj hh))

/-- Decidable equality for lists of `GoVal`. -/
def GoVal.decEqList : (a b : List GoVal) → Decidable (a = b)
  | [], [] => .isTrue rfl
  | [], _ :: _ => .isFalse (fun h => List.noConfusion h)
  | _ :: _, [] => .isFalse (fun h => List.noConfusion h)
  | x :: xs, y :: ys =>
    match GoVal.decEq x y with
    | .isFalse h1 => .isFalse (fun h => h1 (List.cons.inj h).1)
    | .isTrue h1 =>
      match GoVal.decEqList xs ys with
      | .isTrue h2 => .isTrue (by rw [h1, h2])
      | .isFalse h2 => .isFalse (fun h => h2 (List.cons.inj h).2)

/-- Decidable equality for `GoVal` object field lists. -/
def GoVal.decEqFields : (a b : List (String × GoVal)) → Decidable (a = b)
  | [], [] => .isTrue rfl
  | [], _ :: _ => .isFalse (fun h => List.noConfusion h)
  | _ :: _, [] => .isFalse (fun h => List.noConfusion h)
  | (k1, v1) :: xs, (k2, v2) :: ys =>
    if h1 : k1 = k2 then
      match GoVal.decEq v1 v2 with
      | .isFalse h2 =>
        .isFalse (fun h => h2 (congrArg Prod.snd (List.cons.inj h).1))
      | .isTrue h2 =>
        match GoVal.decEqFields xs ys with
        | .isTrue h3 => .isTrue (by rw [h1, h2, h3])
        | .isFalse h3 => .isFalse (fun h => h3 (List.cons.inj h).2)
    else
      .isFalse (fun h => h1 (congrArg Prod.fst (List.cons.inj h).1))

end

instance : DecidableEq GoVal := GoVal.decEq

/-- A Go `error` value as the engine produces them: `fmt.Errorf` strings,
`fmt.Errorf("...: %w", err)` wrappings, and the typed registry errors. -/
inductive GoError where
  | errorString (s : String) : GoError
  | wrapped (msg : String) (cause : GoError) : GoError
  | unifiedErr (type message : String) (code : Int) : GoError
deriving DecidableEq

/-- Go `uint(x)` on an `int` value: wraps modulo `2^64`. -/
def goUintOfInt (x : Int) : Nat := (x % (2 ^ 64 : Int)).toNat

/-- Go `int(n)` on a `uint` value: wraps modulo `2^64` into the signed range. -/
def goIntOfUint (n : Nat) : Int := ((n : Int) + 2 ^ 63) % 2 ^ 64 - 2 ^ 63

/-! ## Unified intermediate representation (IR)

Translated from the IR type definitions of the repository
(`UnifiedRequest`, `UnifiedMessage`, `UnifiedMessagePart`, `UnifiedTool`,
`UnifiedToolCall`, `UnifiedResponseFormat`, `UnifiedResponse`,
`UnifiedChoice`, `UnifiedUsage`, `UnifiedLogProbs`, `UnifiedError`).
Field defaults are the Go zero values, so `{}` is the Go zero struct. -/

/-- IR image reference (`UnifiedImageURL`). -/
structure UnifiedImageURL where
  url : String := ""
  detail : String := ""
deriving DecidableEq

/-- IR message content part (`UnifiedMessagePart`). -/
structure UnifiedMessagePart where
  type : String := ""
  text : String := ""
  imageURL : Option UnifiedImageURL := none
  mediaType : String := ""
  data : String := ""
  metadata : Option (List (String × GoVal)) := none
deriving DecidableEq

/-- IR tool declaration (`UnifiedTool`). -/
structure UnifiedTool where
  type : String := ""
  name : String := ""
  description : String := ""
  parameters : Option (List (String × GoVal)) := none
deriving DecidableEq

/-- IR tool invocation (`UnifiedToolCall`). -/
structure UnifiedToolCall where
  id : String := ""
  type : String := ""
  name : String := ""
  arguments : Option (List (String × GoVal)) := none
deriving DecidableEq

/-- IR message (`UnifiedMessage`). -/
structure UnifiedMessage where
  role : String := ""
  content : String := ""
  name : String := ""
  parts : List UnifiedMessagePart := []
  toolCalls : List UnifiedToolCall := []
  toolCallID : String := ""
deriving DecidableEq

/-- IR structured-output format (`UnifiedResponseFormat`). -/
structure UnifiedResponseFormat where
  type : String := ""
  schema : Option (List (String × GoVal)) := none
deriving DecidableEq

/-- IR request (`UnifiedRequest`). -/
structure UnifiedRequest where
  model : String := ""
  messages : List UnifiedMessage := []
  systemPrompt : String := ""
  maxTokens : Int := 0
  temperature : Option Rat := none
  topP : Option Rat := none
  stream : Bool := false
  tools : List UnifiedTool := []
  toolChoice : String := ""
  stopSequences : List String := []
  responseFormat : Option UnifiedResponseFormat := none
  seed : Option Int := none
  frequencyPenalty : Option Rat := none
  presencePenalty : Option Rat := none
  user : String := ""
deriving DecidableEq

/-- IR token usage (`UnifiedUsage`). -/
structure UnifiedUsage where
  promptTokens : Int := 0
  completionTokens : Int := 0
  totalTokens : Int := 0
  cacheReadTokens : Int := 0
  cacheWriteTokens : Int := 0
deriving DecidableEq

/-- IR per-token log probability (`UnifiedLogProb`). -/
structure UnifiedLogProb where
  token : String := ""
  logProb : Rat := 0
  bytes : List Nat := []
deriving DecidableEq

/-- IR log probabilities (`UnifiedLogProbs`). -/
structure UnifiedLogProbs where
  content : List UnifiedLogProb := []
deriving DecidableEq

/-- IR error (`UnifiedError`). -/
structure UnifiedError where
  type : String := ""
  message : String := ""
  code : Int := 0
deriving DecidableEq

/-- IR choice (`UnifiedChoice`). -/
structure UnifiedChoice where
  index : Int := 0
  message : UnifiedMessage := {}
  finishReason : String := ""
  logProbs : Option UnifiedLogProbs := none
deriving DecidableEq

/-- IR response (`UnifiedResponse`).  `provider` is the Go `Provider`
string type. -/
structure UnifiedResponse where
  id : String := ""
  object : String := ""
  created : Int := 0
  model : String := ""
  provider : String := ""
  choices : List UnifiedChoice := []
  usage : Option UnifiedUsage := none
  systemFingerprint : String := ""
  error : Option UnifiedError := none
  metadata : Option (List (String × GoVal)) := none
deriving DecidableEq

/-! ## Shared adapter helpers (`transformer` package) -/

/-- `convertAnyToMap`: nil stays nil, a map is returned as-is, anything
else fails the JSON round trip into a map and yields nil. -/
def convertAnyToMap (v : GoVal) : Option (List (String × GoVal)) :=
  match v with
  | .null => none
  | .obj m => some m
  | _ => none

/-- A Go `map[string]interface{}` value assigned into an `interface{}`
field (`nil` map stays a nil interface in the embedded data). -/
def goValOfMap (m : Option (List (String × GoVal))) : GoVal :=
  match m with
  | some fields => .obj fields
  | none => .null

/-- Go map indexing `m[key]`: the zero value (nil interface) if absent. -/
def goMapIndex (m : List (String × GoVal)) (key : String) : GoVal :=
  match m.lookup key with
  | some v => v
  | none => .null

/-- `getStringFromMap`. -/
def getStringFromMap (m : List (String × GoVal)) (key : String) : String :=
  match m.lookup key with
  | some (.str s) => s
  | _ => ""

/-- `generateToolCallID`: `fmt.Sprintf("call_%d", len(fmt.Sprintf("%d", 1234567890)))`. -/
def generateToolCallID : String :=
  "call_" ++ toString (toString (1234567890 : Nat)).length

/-! ## Gemini provider schema (`gemini` package, in the source tree) -/

/-- `gemini.GeminiThinkingConfig`. -/
structure GeminiThinkingConfig where
  includeThoughts : Bool := false
  thinkingBudget : Option Int := none
deriving DecidableEq

/-- `gemini.GeminiChatGenerationConfig`.  `responseSchema` is `any`;
`speechConfig` (raw JSON bytes) is carried as a string. -/
structure GeminiChatGenerationConfig where
  temperature : Option Rat := none
  topP : Rat := 0
  topK : Rat := 0
  maxOutputTokens : Nat := 0
  candidateCount : Int := 0
  stopSequences : List String := []
  responseMimeType : String := ""
  responseSchema : GoVal := .null
  seed : Int := 0
  responseModalities : List String := []
  thinkingConfig : Option GeminiThinkingConfig := none
  speechConfig : String := ""
deriving DecidableEq

/-- `gemini.GeminiInlineData`. -/
structure GeminiInlineData where
  mimeType : String := ""
  data : String := ""
deriving DecidableEq

/-- `gemini.FunctionCall` (`Arguments` is `any`). -/
structure GeminiFunctionCall where
  functionName : String := ""
  arguments : GoVal := .null
deriving DecidableEq

/-- `gemini.FunctionResponse`. -/
structure GeminiFunctionResponse where
  name : String := ""
  response : Option (List (String × GoVal)) := none
deriving DecidableEq

/-- `gemini.GeminiFileData`. -/
structure GeminiFileData where
  mimeType : String := ""
  fileUri : String := ""
deriving DecidableEq

/-- `gemini.GeminiPartExecutableCode`. -/
structure GeminiPartExecutableCode where
  language : String := ""
  code : String := ""
deriving DecidableEq

/-- `gemini.GeminiPartCodeExecutionResult`. -/
structure GeminiPartCodeExecutionResult where
  outcome : String := ""
  output : String := ""
deriving DecidableEq

/-- `gemini.GeminiPart`. -/
structure GeminiPart where
  text : String := ""
  thought : Bool := false
  inlineData : Option GeminiInlineData := none
  functionCall : Option GeminiFunctionCall := none
  functionResponse : Option GeminiFunctionResponse := none
  fileData : Option GeminiFileData := none
  executableCode : Option GeminiPartExecutableCode := none
  codeExecutionResult : Option GeminiPartCodeExecutionResult := none
deriving DecidableEq

/-- `gemini.GeminiChatContent`. -/
structure GeminiChatContent where
  role : String := ""
  parts : List GeminiPart := []
deriving DecidableEq

/-- `gemini.GeminiChatTool` (all four fields are `any`, nil when unset). -/
structure GeminiChatTool where
  googleSearch : Option GoVal := none
  googleSearchRetrieval : Option GoVal := none
  codeExecution : Option GoVal := none
  functionDeclarations : Option GoVal := none
deriving DecidableEq

/-- `gemini.GeminiChatSafetySettings`. -/
structure GeminiChatSafetySettings where
  category : String := ""
  threshold : String := ""
deriving DecidableEq

/-- `gemini.GeminiChatRequest`. -/
structure GeminiChatRequest where
  contents : List GeminiChatContent := []
  safetySettings : List GeminiChatSafetySettings := []
  generationConfig : GeminiChatGenerationConfig := {}
  tools : List GeminiChatTool := []
  systemInstructions : Option GeminiChatContent := none
deriving DecidableEq

/-- `gemini.GeminiChatSafetyRating`. -/
structure GeminiChatSafetyRating where
  category : String := ""
  probability : String := ""
deriving DecidableEq

/-- `gemini.GeminiChatCandidate` (`groundingMetadata` raw JSON as string). -/
structure GeminiChatCandidate where
  content : GeminiChatContent := {}
  finishReason : Option String := none
  index : Int := 0
  safetyRatings : List GeminiChatSafetyRating := []
  groundingMetadata : String := ""
deriving DecidableEq

/-- `gemini.GeminiPromptTokensDetails`. -/
structure GeminiPromptTokensDetails where
  modality : String := ""
  tokenCount : Int := 0
deriving DecidableEq

/-- `gemini.GeminiUsageMetadata` (the `Raw` bytes carry no information
beyond the decoded fields and are dropped). -/
structure GeminiUsageMetadata where
  promptTokenCount : Int := 0
  candidatesTokenCount : Int := 0
  totalTokenCount : Int := 0
  thoughtsTokenCount : Int := 0
  cachedContentTokenCount : Int := 0
  promptTokensDetails : List GeminiPromptTokensDetails := []
deriving DecidableEq

/-- `gemini.GeminiChatPromptFeedback`. -/
structure GeminiChatPromptFeedback where
  safetyRatings : List GeminiChatSafetyRating := []
deriving DecidableEq

/-- `gemini.GeminiChatResponse`. -/
structure GeminiChatResponse where
  candidates : List GeminiChatCandidate := []
  promptFeedback : GeminiChatPromptFeedback := {}
  usageMetadata : GeminiUsageMetadata := {}
deriving DecidableEq

/-! ## Gemini adapter (`transformer/gemini.go`) -/

/-- `GeminiTransformer.convertGeminiRoleToUnified`. -/
def convertGeminiRoleToUnified (role : String) : String :=
  if role = "user" then "user"
  else if role = "model" then "assistant"
  else if role = "function" then "tool"
  else role

/-- `GeminiTransformer.convertUnifiedRoleToGemini`. -/
def convertUnifiedRoleToGemini (role : String) : String :=
  if role = "user" then "user"
  else if role = "assistant" then "model"
  else if role = "system" then "user"
  else if role = "tool" then "function"
  else role

/-- `GeminiTransformer.extractTextFromParts`. -/
def extractTextFromParts (parts : List GeminiPart) : String :=
  parts.foldl (fun text part => if part.text ≠ "" then text ++ part.text else text) ""

/-- `GeminiTransformer.convertGeminiPartToUnified`. -/
def convertGeminiPartToUnified (part : GeminiPart) : Option UnifiedMessagePart :=
  match part.inlineData with
  | some inline => some { type := "image", mediaType := inline.mimeType, data := inline.data }
  | none =>
    match part.fileData with
    | some file => some { type := "file", mediaType := file.mimeType, data := file.fileUri }
    | none => none

/-- `GeminiTransformer.convertUnifiedPartToGemini`. -/
def convertUnifiedPartToGemini (part : UnifiedMessagePart) : Option GeminiPart :=
  if part.type = "image" then
    if part.mediaType ≠ "" ∧ part.data ≠ "" then
      some { inlineData := some { mimeType := part.mediaType, data := part.data } }
    else if part.imageURL.isSome then
      -- URL-based images would need an external download; the adapter emits nothing
      none
    else none
  else if part.type = "file" then
    if part.mediaType ≠ "" ∧ part.data ≠ "" then
      some { fileData := some { mimeType := part.mediaType, fileUri := part.data } }
    else none
  else none

/-- `GeminiTransformer.convertGeminiFinishReason`. -/
def convertGeminiFinishReason (reason : String) : String :=
  if reason = "STOP" then "stop"
  else if reason = "MAX_TOKENS" then "length"
  else if reason = "SAFETY" then "content_filter"
  else if reason = "RECITATION" then "content_filter"
  else reason

/-- `GeminiTransformer.convertUnifiedFinishReasonToGemini`. -/
def convertUnifiedFinishReasonToGemini (reason : String) : String :=
  if reason = "stop" then "STOP"
  else if reason = "length" then "MAX_TOKENS"
  else if reason = "content_filter" then "SAFETY"
  else "STOP"

/-- `GeminiTransformer.ValidateRequest` (typed; the `interface{}` type
assertion cannot fail on a typed input). -/
def geminiValidateRequest (req : GeminiChatRequest) : Option GoError :=
  if req.contents.length = 0 then
    some (.errorString "contents cannot be empty")
  else none

/-- One iteration of the contents loop of `GeminiTransformer.ToUnified`.
Each field is written at most once in the Go loop body, so the sequence
of guarded assignments is rendered as one record; the Go guard
`if textContent != ""` only skips writing the empty string over the
zero value and is dropped. -/
def geminiContentToUnifiedMessage (content : GeminiChatContent) : UnifiedMessage :=
  if content.parts.length > 0 then
    { role := convertGeminiRoleToUnified content.role,
      content := extractTextFromParts content.parts,
      parts := content.parts.filterMap (fun (part : GeminiPart) =>
        if part.text = "" then convertGeminiPartToUnified part else none),
      toolCalls := content.parts.filterMap (fun (part : GeminiPart) =>
        match part.functionCall with
        | some fc =>
          some { id := generateToolCallID, type := "function",
                 name := fc.functionName, arguments := convertAnyToMap fc.arguments }
        | none => none) }
  else { role := convertGeminiRoleToUnified content.role }

/-- One iteration of the tools loop of `GeminiTransformer.ToUnified`:
built-in tool entries plus the decoded function declarations. -/
def geminiToolToUnified (tool : GeminiChatTool) : List UnifiedTool :=
  (match tool.codeExecution with
   | some _ => [{ type := "code_execution", name := "codeExecution",
                  description := "Execute code in a secure environment" }]
   | none => []) ++
  (match tool.googleSearch with
   | some _ => [{ type := "google_search", name := "googleSearch",
                  description := "Search the web using Google Search" }]
   | none => []) ++
  (match tool.googleSearchRetrieval with
   | some _ => [{ type := "google_search_retrieval", name := "googleSearchRetrieval",
                  description := "Search and retrieve information using Google Search with enhanced retrieval capabilities" }]
   | none => []) ++
  (match tool.functionDeclarations with
   | some (.arr funcs) =>
     funcs.filterMap (fun f =>
       match f with
       | .obj funcMap =>
         some { type := "function",
                name := getStringFromMap funcMap "name",
                description := getStringFromMap funcMap "description",
                parameters := convertAnyToMap (goMapIndex funcMap "parameters") }
       | _ => none)
   | _ => [])

/-- The field-mapping step of `GeminiTransformer.ToUnified`.  The Go
function fills disjoint fields through guarded assignments; guards that
only skip writing the zero value (`Temperature != nil`,
`len(StopSequences) > 0`, `len(Tools) > 0`) are collapsed into plain
copies. -/
def geminiMapToIR (req : GeminiChatRequest) : UnifiedRequest :=
  { model := "gemini",
    temperature := req.generationConfig.temperature,
    topP := if req.generationConfig.topP > 0 then
      some req.generationConfig.topP else none,
    maxTokens := if req.generationConfig.maxOutputTokens > 0 then
      goIntOfUint req.generationConfig.maxOutputTokens else 0,
    stopSequences := req.generationConfig.stopSequences,
    seed := if req.generationConfig.seed ≠ 0 then
      some req.generationConfig.seed else none,
    systemPrompt := match req.systemInstructions with
      | some si => extractTextFromParts si.parts
      | none => "",
    messages := req.contents.map geminiContentToUnifiedMessage,
    tools := req.tools.flatMap geminiToolToUnified }

/-- `GeminiTransformer.ToUnified`: validation first, then field mapping. -/
def geminiToUnified (req : GeminiChatRequest) : Except GoError UnifiedRequest :=
  match geminiValidateRequest req with
  | some e => .error (.wrapped "validation failed" e)
  | none => .ok (geminiMapToIR req)

/-- One iteration of the messages loop of `GeminiTransformer.FromUnified`. -/
def unifiedMessageToGeminiContent (msg : UnifiedMessage) : GeminiChatContent :=
  { role := convertUnifiedRoleToGemini msg.role,
    parts :=
      (if msg.content ≠ "" then [{ text := msg.content }] else []) ++
      msg.parts.filterMap convertUnifiedPartToGemini ++
      msg.toolCalls.map (fun toolCall =>
        { functionCall := some { functionName := toolCall.name,
                                 arguments := goValOfMap toolCall.arguments } }) }

/-- The tools loop of `GeminiTransformer.FromUnified`: built-in tools are
appended in iteration order, collected function declarations are appended
last as a single tool entry. -/
def geminiToolsFromUnified (tools : List UnifiedTool) : List GeminiChatTool :=
  let step := tools.foldl
    (fun (acc : List GeminiChatTool × List GoVal) unifiedTool =>
      if unifiedTool.name = "code_interpreter" ∨ unifiedTool.name = "python" ∨
         unifiedTool.name = "code_execution" ∨ unifiedTool.name = "codeExecution" then
        (acc.1 ++ [{ codeExecution := some (.obj []) }], acc.2)
      else if unifiedTool.name = "web_search" ∨ unifiedTool.name = "google_search" ∨
              unifiedTool.name = "googleSearch" ∨ unifiedTool.name = "search" then
        (acc.1 ++ [{ googleSearch := some (.obj []) }], acc.2)
      else if unifiedTool.name = "google_search_retrieval" ∨
              unifiedTool.name = "googleSearchRetrieval" then
        (acc.1 ++ [{ googleSearchRetrieval := some (.obj []) }], acc.2)
      else if unifiedTool.type = "code_execution" ∨ unifiedTool.type = "codeExecution" then
        (acc.1 ++ [{ codeExecution := some (.obj []) }], acc.2)
      else if unifiedTool.type = "google_search" ∨ unifiedTool.type = "googleSearch" then
        (acc.1 ++ [{ googleSearch := some (.obj []) }], acc.2)
      else if unifiedTool.type = "google_search_retrieval" ∨
              unifiedTool.type = "googleSearchRetrieval" then
        (acc.1 ++ [{ googleSearchRetrieval := some (.obj []) }], acc.2)
      else
        (acc.1, acc.2 ++ [.obj [("name", .str unifiedTool.name),
                                ("description", .str unifiedTool.description),
                                ("parameters", goValOfMap unifiedTool.parameters)]]))
    ([], [])
  if step.2.length > 0 then
    step.1 ++ [{ functionDeclarations := some (.arr step.2) }]
  else step.1

/-- `GeminiTransformer.FromUnified` (never returns an error).  Guards
that only skip writing the zero value (`Temperature != nil`,
`len(StopSequences) > 0`, `Seed != nil`, `len(Tools) > 0` — the tools
loop emits nothing on an empty list) are collapsed into plain copies. -/
def geminiFromUnified (u : UnifiedRequest) : GeminiChatRequest :=
  { generationConfig :=
      { temperature := u.temperature,
        topP := match u.topP with
          | some v => v
          | none => 0,
        maxOutputTokens := if u.maxTokens > 0 then goUintOfInt u.maxTokens else 0,
        stopSequences := u.stopSequences,
        seed := match u.seed with
          | some s => s
          | none => 0 },
    systemInstructions :=
      if u.systemPrompt ≠ "" then some { parts := [{ text := u.systemPrompt }] } else none,
    contents := u.messages.map unifiedMessageToGeminiContent,
    tools := geminiToolsFromUnified u.tools }

/-- One iteration of the candidates loop of
`GeminiTransformer.ResponseToUnified`. -/
def geminiCandidateToUnifiedChoice (i : Nat) (candidate : GeminiChatCandidate) : UnifiedChoice :=
  { index := (i : Int),
    message :=
      { role := convertGeminiRoleToUnified candidate.content.role,
        content := extractTextFromParts candidate.content.parts,
        parts := candidate.content.parts.filterMap (fun (part : GeminiPart) =>
          if part.text = "" then convertGeminiPartToUnified part else none),
        toolCalls := candidate.content.parts.filterMap (fun (part : GeminiPart) =>
          match part.functionCall with
          | some fc =>
            some { id := generateToolCallID, type := "function",
                   name := fc.functionName, arguments := convertAnyToMap fc.arguments }
          | none => none) },
    finishReason := match candidate.finishReason with
      | some r => convertGeminiFinishReason r
      | none => "" }

/-- `GeminiTransformer.ResponseToUnified`. -/
def geminiResponseToUnified (resp : GeminiChatResponse) : UnifiedResponse :=
  { provider := "gemini",
    object := "chat.completion",
    usage :=
      if resp.usageMetadata.totalTokenCount > 0 then
        some { promptTokens := resp.usageMetadata.promptTokenCount,
               completionTokens := resp.usageMetadata.candidatesTokenCount,
               totalTokens := resp.usageMetadata.totalTokenCount }
      else none,
    choices := (resp.candidates.enum.map (fun p => geminiCandidateToUnifiedChoice p.1 p.2)) }

/-! ## Claude provider schema

The `claude` package of the repository is not part of the source tree
here (only the adapters that use it are), so its data shapes and content
helpers are reconstructed from the adapters' usage and the spec. -/

/-- `common.CacheControl` (this one is in the source tree). -/
structure CacheControl where
  type : String := ""
  ttl : String := ""
deriving DecidableEq

/-- Modelled from the spec: `claude.ClaudeMessageSource` — an image or
document source that carries either inline base64 data plus a media type
or a URL reference (`Data` is a Go `any`, a string when base64). -/
structure ClaudeMessageSource where
  type : String := ""
  mediaType : String := ""
  data : GoVal := .null
  url : String := ""
deriving DecidableEq

/-- Modelled from the spec: `claude.ClaudeMediaMessage` — one content
block of a Claude message or response (text, image, document, `tool_use`
or `tool_result`); `Input` and `Content` are Go `any` values. -/
structure ClaudeMediaMessage where
  type : String := ""
  text : Option String := none
  source : Option ClaudeMessageSource := none
  id : String := ""
  name : String := ""
  input : GoVal := .null
  toolUseId : String := ""
  content : GoVal := .null
  cacheControl : Option CacheControl := none
deriving DecidableEq

/-- Modelled from the spec: `claude.ClaudeMediaMessage.GetText` — the
text of a block, empty when the `Text` pointer is nil. -/
def ClaudeMediaMessage.getText (m : ClaudeMediaMessage) : String :=
  match m.text with
  | some t => t
  | none => ""

/-- Modelled from the spec: the dynamic content of a Claude message —
plain text or an ordered sequence of content blocks, mutually exclusive
(`Content` is a Go `any`; nil when the message was never filled). -/
inductive ClaudeMessageContent where
  | nilContent : ClaudeMessageContent
  | str (s : String) : ClaudeMessageContent
  | blocks (parts : List ClaudeMediaMessage) : ClaudeMessageContent
deriving DecidableEq

/-- Modelled from the spec: `claude.ClaudeMessage`. -/
structure ClaudeMessage where
  role : String := ""
  content : ClaudeMessageContent := .nilContent
deriving DecidableEq

/-- Modelled from the spec: `claude.ClaudeMessage.IsStringContent`. -/
def ClaudeMessage.isStringContent (m : ClaudeMessage) : Bool :=
  match m.content with
  | .str _ => true
  | _ => false

/-- Modelled from the spec: `claude.ClaudeMessage.GetStringContent`. -/
def ClaudeMessage.getStringContent (m : ClaudeMessage) : String :=
  match m.content with
  | .str s => s
  | _ => ""

/-- Modelled from the spec: `claude.ClaudeMessage.SetStringContent`. -/
def ClaudeMessage.setStringContent (m : ClaudeMessage) (s : String) : ClaudeMessage :=
  { m with content := .str s }

/-- Modelled from the spec: `claude.ClaudeMessage.ParseContent` — yields
the content blocks; fails on non-block content (the adapter only calls it
on non-string content). -/
def ClaudeMessage.parseContent (m : ClaudeMessage) : Except GoError (List ClaudeMediaMessage) :=
  match m.content with
  | .blocks parts => .ok parts
  | .nilContent => .ok []
  | .str _ => .error (.errorString "content is not a block list")

/-- Modelled from the spec: the dynamic `System` field of a Claude
request — a plain string or a sequence of text blocks. -/
inductive ClaudeSystemVal where
  | str (s : String) : ClaudeSystemVal
  | blocks (parts : List ClaudeMediaMessage) : ClaudeSystemVal
deriving DecidableEq

/-- Modelled from the spec: `claude.Tool` (`InputSchema` is the
JSON-schema parameter map). -/
structure ClaudeTool where
  name : String := ""
  description : String := ""
  inputSchema : Option (List (String × GoVal)) := none
deriving DecidableEq

/-- Modelled from the spec: `claude.ClaudeToolChoice`. -/
structure ClaudeToolChoice where
  type : String := ""
  name : String := ""
deriving DecidableEq

/-- Modelled from the spec: the dynamic `ToolChoice` field of a Claude
request: a plain string, a `ClaudeToolChoice` value, or a pointer to one
(the adapter's `FromUnified` stores a pointer, its `ToUnified` type
switch only matches the string and value cases). -/
inductive ClaudeToolChoiceVal where
  | str (s : String) : ClaudeToolChoiceVal
  | choice (c : ClaudeToolChoice) : ClaudeToolChoiceVal
  | ptr (c : ClaudeToolChoice) : ClaudeToolChoiceVal
deriving DecidableEq

/-- Modelled from the spec: `claude.ClaudeRequest` (`MaxTokens` is a Go
`uint`; `Prompt` is the legacy text-completion field). -/
structure ClaudeRequest where
  model : String := ""
  prompt : String := ""
  messages : List ClaudeMessage := []
  system : Option ClaudeSystemVal := none
  maxTokens : Nat := 0
  temperature : Option Rat := none
  topP : Rat := 0
  stopSequences : List String := []
  stream : Bool := false
  tools : Option (List ClaudeTool) := none
  toolChoice : Option ClaudeToolChoiceVal := none
deriving DecidableEq

/-- Modelled from the spec: `claude.ClaudeRequest.IsStringSystem`. -/
def ClaudeRequest.isStringSystem (r : ClaudeRequest) : Bool :=
  match r.system with
  | some (.str _) => true
  | _ => false

/-- Modelled from the spec: `claude.ClaudeRequest.GetStringSystem`. -/
def ClaudeRequest.getStringSystem (r : ClaudeRequest) : String :=
  match r.system with
  | some (.str s) => s
  | _ => ""

/-- Modelled from the spec: `claude.ClaudeRequest.SetStringSystem`. -/
def ClaudeRequest.setStringSystem (r : ClaudeRequest) (s : String) : ClaudeRequest :=
  { r with system := some (.str s) }

/-- Modelled from the spec: `claude.ClaudeRequest.ParseSystem` — the
system content as blocks (a plain string becomes one text block). -/
def ClaudeRequest.parseSystem (r : ClaudeRequest) : List ClaudeMediaMessage :=
  match r.system with
  | some (.blocks parts) => parts
  | some (.str s) => [{ type := "text", text := some s }]
  | none => []

/-- Modelled from the spec: `claude.ClaudeRequest.GetTools`. -/
def ClaudeRequest.getTools (r : ClaudeRequest) : Option (List ClaudeTool) :=
  r.tools

/-- Modelled from the spec: `claude.ClaudeRequest.AddTool` appends one
tool declaration. -/
def ClaudeRequest.addTool (r : ClaudeRequest) (t : ClaudeTool) : ClaudeRequest :=
  match r.tools with
  | some ts => { r with tools := some (ts ++ [t]) }
  | none => { r with tools := some [t] }

/-- Modelled from the spec: `claude.ProcessTools` separates built-in
from user-defined tools and returns the user-defined ("normal") ones
first; the modelled `Tool` carries no built-in type tag, so every tool
passes through as user-defined. -/
def claudeProcessTools (ts : List ClaudeTool) : List ClaudeTool := ts

/-- Modelled from the spec: `claude.ClaudeError`. -/
structure ClaudeError where
  type : String := ""
  message : String := ""
deriving DecidableEq

/-- Modelled from the spec: `claude.ClaudeUsage`. -/
structure ClaudeUsage where
  inputTokens : Int := 0
  outputTokens : Int := 0
  cacheReadInputTokens : Int := 0
  cacheCreationInputTokens : Int := 0
deriving DecidableEq

/-- Modelled from the spec: `claude.ClaudeResponse` (`Completion` is the
legacy text-completion field). -/
structure ClaudeResponse where
  id : String := ""
  type : String := ""
  role : String := ""
  content : List ClaudeMediaMessage := []
  completion : String := ""
  stopReason : String := ""
  model : String := ""
  error : Option ClaudeError := none
  usage : Option ClaudeUsage := none
deriving DecidableEq

/-! ## Claude adapter (`transformer/claude.go`) -/

/-- `ClaudeTransformer.ValidateRequest`. -/
def claudeValidateRequest (req : ClaudeRequest) : Option GoError :=
  if req.model = "" then
    some (.errorString "model is required")
  else if req.messages.length = 0 ∧ req.prompt = "" then
    some (.errorString "either messages or prompt must be provided")
  else if req.maxTokens = 0 then
    some (.errorString "max_tokens is required")
  else none

/-- `ClaudeTransformer.extractTextFromMediaMessages`. -/
def extractTextFromMediaMessages (parts : List ClaudeMediaMessage) : String :=
  parts.foldl (fun text part => if part.type = "text" then text ++ part.getText else text) ""

/-- A `ClaudeMessageSource` pointer stored into a Go `interface{}` map
value, represented by its field object. -/
def claudeSourceToGoVal (s : Option ClaudeMessageSource) : GoVal :=
  match s with
  | some src => .obj [("type", .str src.type), ("media_type", .str src.mediaType),
                      ("data", src.data), ("url", .str src.url)]
  | none => .null

/-- `ClaudeTransformer.convertClaudePartToUnified`. -/
def convertClaudePartToUnified (part : ClaudeMediaMessage) : Option UnifiedMessagePart :=
  if part.type = "image" then
    match part.source with
    | some source =>
      let base : UnifiedMessagePart := { type := "image", mediaType := source.mediaType }
      if source.type = "base64" then
        match source.data with
        | .str d => some { base with data := d }
        | _ => some base
      else if source.type = "url" then
        some { base with imageURL := some { url := source.url } }
      else some base
    | none => none
  else if part.type = "document" then
    some { type := "document", metadata := some [("source", claudeSourceToGoVal part.source)] }
  else none

/-- `ClaudeTransformer.convertUnifiedPartToClaude`. -/
def convertUnifiedPartToClaude (part : UnifiedMessagePart) : Option ClaudeMediaMessage :=
  if part.type = "image" then
    let claudePart : ClaudeMediaMessage := { type := "image" }
    if part.data ≠ "" then
      some { claudePart with
             source := some { type := "base64", mediaType := part.mediaType,
                              data := .str part.data } }
    else
      match part.imageURL with
      | some iu => some { claudePart with source := some { type := "url", url := iu.url } }
      | none => some claudePart
  else if part.type = "document" then
    some { type := "document",
           source := some { type := "base64", mediaType := part.mediaType,
                            data := .str part.data } }
  else none

/-- One iteration of the messages loop of `ClaudeTransformer.ToUnified`. -/
def claudeMessageToUnified (msg : ClaudeMessage) : UnifiedMessage :=
  let base : UnifiedMessage := { role := msg.role }
  if msg.isStringContent then
    { base with content := msg.getStringContent }
  else
    match msg.parseContent with
    | .error _ => base
    | .ok parts =>
      let textContent := extractTextFromMediaMessages parts
      let m1 : UnifiedMessage :=
        if textContent ≠ "" then { base with content := textContent } else base
      let m2 : UnifiedMessage :=
        { m1 with parts := parts.filterMap convertClaudePartToUnified }
      let m3 : UnifiedMessage :=
        { m2 with toolCalls := parts.filterMap (fun (part : ClaudeMediaMessage) =>
            if part.type = "tool_use" then
              some { id := part.id, type := "function", name := part.name,
                     arguments := convertAnyToMap part.input }
            else none) }
      parts.foldl (fun (m : UnifiedMessage) (part : ClaudeMediaMessage) =>
        if part.type = "tool_result" then
          let m' := { m with toolCallID := part.toolUseId }
          match part.content with
          | .str c => { m' with content := c }
          | _ => m'
        else m) m3

/-- The field-mapping step of `ClaudeTransformer.ToUnified`.  The Go
function fills disjoint fields through guarded assignments (the legacy
prompt prepends a user message before the messages loop appends); guards
that only skip writing the zero value are collapsed into plain copies.
Note that the Go function never copies `MaxTokens` into the IR. -/
def claudeMapToIR (req : ClaudeRequest) : UnifiedRequest :=
  { model := req.model,
    stream := req.stream,
    topP := some req.topP,
    temperature := req.temperature,
    stopSequences := req.stopSequences,
    systemPrompt := match req.system with
      | some _ =>
        if req.isStringSystem then req.getStringSystem
        else extractTextFromMediaMessages req.parseSystem
      | none => "",
    messages :=
      (if req.prompt ≠ "" then [{ role := "user", content := req.prompt }] else []) ++
      req.messages.map claudeMessageToUnified,
    tools := match req.tools with
      | some _ =>
        match req.getTools with
        | some tools =>
          (claudeProcessTools tools).map (fun (t : ClaudeTool) =>
            { type := "function", name := t.name, description := t.description,
              parameters := t.inputSchema })
        | none => []
      | none => [],
    toolChoice := match req.toolChoice with
      | some (.str tc) => tc
      | some (.choice tc) => if tc.type = "tool" then tc.name else tc.type
      | some (.ptr _) => ""
      | none => "" }

/-- `ClaudeTransformer.ToUnified`: validation first, then field mapping. -/
def claudeToUnified (req : ClaudeRequest) : Except GoError UnifiedRequest :=
  match claudeValidateRequest req with
  | some e => .error (.wrapped "validation failed" e)
  | none => .ok (claudeMapToIR req)

/-- One iteration of the messages loop of `ClaudeTransformer.FromUnified`. -/
def claudeMessageFromUnified (m : UnifiedMessage) : ClaudeMessage :=
  if m.content ≠ "" ∧ m.parts.length = 0 ∧ m.toolCalls.length = 0 then
    ClaudeMessage.setStringContent { role := m.role } m.content
  else
    let parts : List ClaudeMediaMessage :=
      (if m.content ≠ "" then [{ type := "text", text := some m.content }] else []) ++
      m.parts.filterMap convertUnifiedPartToClaude ++
      m.toolCalls.map (fun (tc : UnifiedToolCall) =>
        { type := "tool_use", id := tc.id, name := tc.name,
          input := goValOfMap tc.arguments }) ++
      (if m.toolCallID ≠ "" then
        [{ type := "tool_result", toolUseId := m.toolCallID, content := .str m.content }]
       else [])
    { role := m.role, content := .blocks parts }

/-- The tools loop of `ClaudeTransformer.FromUnified`: `AddTool` for
every IR tool of type `"function"`, starting from the nil tools field. -/
def claudeToolsFromUnified (tools : List UnifiedTool) : Option (List ClaudeTool) :=
  tools.foldl (fun (acc : Option (List ClaudeTool)) (t : UnifiedTool) =>
    if t.type = "function" then
      match acc with
      | some ts => some (ts ++ [{ name := t.name, description := t.description,
                                  inputSchema := t.parameters }])
      | none => some [{ name := t.name, description := t.description,
                        inputSchema := t.parameters }]
    else acc) none

/-- `ClaudeTransformer.FromUnified` (never returns an error).  Guards
that only skip writing the zero value are collapsed into plain copies;
`SetStringSystem` and `AddTool` write only the `System` and `Tools`
fields. -/
def claudeFromUnified (u : UnifiedRequest) : ClaudeRequest :=
  { model := u.model,
    maxTokens := goUintOfInt u.maxTokens,
    stream := u.stream,
    temperature := u.temperature,
    topP := match u.topP with
      | some v => v
      | none => 0,
    stopSequences := u.stopSequences,
    system := if u.systemPrompt ≠ "" then some (.str u.systemPrompt) else none,
    messages := u.messages.map claudeMessageFromUnified,
    tools := claudeToolsFromUnified u.tools,
    toolChoice :=
      if u.toolChoice ≠ "" then
        if u.toolChoice = "auto" ∨ u.toolChoice = "any" then
          some (.ptr { type := u.toolChoice })
        else
          some (.ptr { type := "tool", name := u.toolChoice })
      else none }

/-- `ClaudeTransformer.ResponseToUnified`. -/
def claudeResponseToUnified (resp : ClaudeResponse) : UnifiedResponse :=
  let u0 : UnifiedResponse :=
    { id := resp.id, object := "chat.completion", model := resp.model,
      provider := "claude" }
  match resp.error with
  | some err => { u0 with error := some { type := err.type, message := err.message } }
  | none =>
    let u1 := match resp.usage with
      | some usage =>
        { u0 with usage := some (
            { promptTokens := usage.inputTokens,
              completionTokens := usage.outputTokens,
              totalTokens := usage.inputTokens + usage.outputTokens,
              cacheReadTokens := usage.cacheReadInputTokens,
              cacheWriteTokens := usage.cacheCreationInputTokens } : UnifiedUsage) }
      | none => u0
    if resp.completion ≠ "" then
      { u1 with choices :=
          [{ index := 0,
             message := { role := "assistant", content := resp.completion },
             finishReason := resp.stopReason }] }
    else if resp.content.length > 0 then
      { u1 with choices :=
          [{ index := 0,
             finishReason := resp.stopReason,
             message :=
               { role := resp.role,
                 content := resp.content.foldl
                   (fun text c =>
                     if c.type = "text" ∧ c.text.isSome then text ++ c.getText else text) "",
                 parts := resp.content.filterMap (fun (c : ClaudeMediaMessage) =>
                   if c.type ≠ "text" then convertClaudePartToUnified c else none),
                 toolCalls := resp.content.filterMap (fun (c : ClaudeMediaMessage) =>
                   if c.type = "tool_use" then
                     some { id := c.id, type := "function", name := c.name,
                            arguments := convertAnyToMap c.input }
                   else none) } }] }
    else u1

/-- `ClaudeTransformer.ResponseFromUnified` (never returns an error). -/
def claudeResponseFromUnified (u : UnifiedResponse) : ClaudeResponse :=
  let r0 : ClaudeResponse := { id := u.id, type := "message", model := u.model }
  match u.error with
  | some err => { r0 with error := some { type := err.type, message := err.message } }
  | none =>
    let r1 := match u.usage with
      | some usage =>
        { r0 with usage := some (
            { inputTokens := usage.promptTokens,
              outputTokens := usage.completionTokens,
              cacheReadInputTokens := usage.cacheReadTokens,
              cacheCreationInputTokens := usage.cacheWriteTokens } : ClaudeUsage) }
      | none => r0
    match u.choices with
    | [] => r1
    | choice :: _ =>
      let r2 := { r1 with role := choice.message.role, stopReason := choice.finishReason }
      { r2 with content :=
          (if choice.message.content ≠ "" then
            [{ type := "text", text := some choice.message.content }]
           else []) ++
          choice.message.parts.filterMap convertUnifiedPartToClaude ++
          choice.message.toolCalls.map (fun (tc : UnifiedToolCall) =>
            { type := "tool_use", id := tc.id, name := tc.name,
              input := goValOfMap tc.arguments }) }

/-! ## OpenAI provider schema

The `openai` package of the repository is likewise not part of the source
tree here (only `dto/openai/usage.go` is); its shapes are reconstructed
from the adapters' usage and the spec.  Following the spec's data model
(§3, §9), tool-call arguments — an opaque JSON blob on the OpenAI wire —
are modelled structurally as the key-unique mapping they encode, so the
adapter's `json.Marshal`/`json.Unmarshal` round trip of that blob is the
identity here. -/

/-- Modelled from the spec: `openai.ChatMessageImageURL`. -/
structure OAIChatMessageImageURL where
  url : String := ""
  detail : String := ""
deriving DecidableEq

/-- Modelled from the spec: `openai.ChatMessagePart`. -/
structure OAIChatMessagePart where
  type : String := ""
  text : String := ""
  imageURL : Option OAIChatMessageImageURL := none
  cacheControl : Option CacheControl := none
deriving DecidableEq

/-- Modelled from the spec: `openai.FunctionCall` (arguments modelled
structurally, see above). -/
structure OAIFunctionCall where
  name : String := ""
  arguments : Option (List (String × GoVal)) := none
deriving DecidableEq

/-- Modelled from the spec: `openai.ToolCall`. -/
structure OAIToolCall where
  id : String := ""
  type : String := ""
  function : OAIFunctionCall := {}
deriving DecidableEq

/-- Modelled from the spec: `openai.ChatCompletionMessage`. -/
structure OAIChatCompletionMessage where
  role : String := ""
  content : String := ""
  multiContent : List OAIChatMessagePart := []
  name : String := ""
  toolCalls : List OAIToolCall := []
  toolCallID : String := ""
deriving DecidableEq

/-- Modelled from the spec: `openai.FunctionDefinition` (`Parameters`
is `any`). -/
structure OAIFunctionDefinition where
  name : String := ""
  description : String := ""
  parameters : GoVal := .null
deriving DecidableEq

/-- Modelled from the spec: `openai.Tool`. -/
structure OAITool where
  type : String := ""
  function : Option OAIFunctionDefinition := none
deriving DecidableEq

/-- Modelled from the spec: `openai.ToolFunction`. -/
structure OAIToolFunction where
  name : String := ""
deriving DecidableEq

/-- Modelled from the spec: `openai.ToolChoice`. -/
structure OAIToolChoice where
  type : String := ""
  function : OAIToolFunction := {}
deriving DecidableEq

/-- Modelled from the spec: the dynamic `ToolChoice` field of an OpenAI
request — a plain string or an `openai.ToolChoice` value. -/
inductive OAIToolChoiceVal where
  | str (s : String) : OAIToolChoiceVal
  | choice (c : OAIToolChoice) : OAIToolChoiceVal
deriving DecidableEq

/-- Modelled from the spec: `openai.ChatCompletionResponseFormatJSONSchema`. -/
structure OAIJSONSchema where
  name : String := ""
  description : String := ""
  strict : Bool := false
deriving DecidableEq

/-- Modelled from the spec: `openai.ChatCompletionResponseFormat`. -/
structure OAIResponseFormat where
  type : String := ""
  jsonSchema : Option OAIJSONSchema := none
deriving DecidableEq

/-- Modelled from the spec: `openai.ChatCompletionRequest`
(`Temperature`, `TopP` and the penalties are `float32` on the wire,
modelled as `Rat`; `Seed` is `*int`). -/
structure ChatCompletionRequest where
  model : String := ""
  messages : List OAIChatCompletionMessage := []
  maxTokens : Int := 0
  maxCompletionTokens : Int := 0
  temperature : Rat := 0
  topP : Rat := 0
  frequencyPenalty : Rat := 0
  presencePenalty : Rat := 0
  seed : Option Int := none
  stop : List String := []
  stream : Bool := false
  user : String := ""
  tools : List OAITool := []
  toolChoice : Option OAIToolChoiceVal := none
  responseFormat : Option OAIResponseFormat := none
  reasoningEffort : String := ""
deriving DecidableEq

/-- `openai.Usage` (from `dto/openai/usage.go`, in the source tree). -/
structure OAIUsage where
  promptTokens : Int := 0
  completionTokens : Int := 0
  totalTokens : Int := 0
deriving DecidableEq

/-- Modelled from the spec: one entry of `openai.LogProbs.Content`. -/
structure OAILogProb where
  token : String := ""
  logProb : Rat := 0
  bytes : List Nat := []
deriving DecidableEq

/-- Modelled from the spec: `openai.LogProbs`. -/
structure OAILogProbs where
  content : List OAILogProb := []
deriving DecidableEq

/-- Modelled from the spec: `openai.ChatCompletionChoice`. -/
structure OAIChatCompletionChoice where
  index : Int := 0
  message : OAIChatCompletionMessage := {}
  finishReason : String := ""
  logProbs : Option OAILogProbs := none
deriving DecidableEq

/-- Modelled from the spec: `openai.ChatCompletionResponse`. -/
structure ChatCompletionResponse where
  id : String := ""
  object : String := ""
  created : Int := 0
  model : String := ""
  choices : List OAIChatCompletionChoice := []
  usage : OAIUsage := {}
  systemFingerprint : String := ""
deriving DecidableEq

/-! ## OpenAI adapter (`transformer/openai.go`) -/

/-- `OpenAITransformer.ValidateRequest`. -/
def openaiValidateRequest (req : ChatCompletionRequest) : Option GoError :=
  if req.model = "" then
    some (.errorString "model is required")
  else if req.messages.length = 0 then
    some (.errorString "messages cannot be empty")
  else none

/-- One iteration of the messages loop of `OpenAITransformer.ToUnified`.
Fields are written at most once; the flat-content branch suppresses the
multipart branch, and guards that only skip writing the zero value are
collapsed into plain copies. -/
def openaiMessageToUnified (msg : OAIChatCompletionMessage) : UnifiedMessage :=
  { role := msg.role,
    name := msg.name,
    content := msg.content,
    parts :=
      if msg.content = "" then
        msg.multiContent.map (fun (part : OAIChatMessagePart) =>
          { type := part.type, text := part.text,
            imageURL := part.imageURL.map (fun iu =>
              { url := iu.url, detail := iu.detail }) })
      else [],
    toolCalls := msg.toolCalls.map (fun (tc : OAIToolCall) =>
      { id := tc.id, type := tc.type, name := tc.function.name,
        arguments := tc.function.arguments }),
    toolCallID := msg.toolCallID }

/-- The field-mapping step of `OpenAITransformer.ToUnified`. -/
def openaiMapToIR (req : ChatCompletionRequest) : UnifiedRequest :=
  { model := req.model,
    maxTokens := if req.maxCompletionTokens > 0 then
      req.maxCompletionTokens else req.maxTokens,
    stream := req.stream,
    stopSequences := req.stop,
    user := req.user,
    temperature := if req.temperature ≠ 0 then some req.temperature else none,
    topP := if req.topP ≠ 0 then some req.topP else none,
    frequencyPenalty := if req.frequencyPenalty ≠ 0 then
      some req.frequencyPenalty else none,
    presencePenalty := if req.presencePenalty ≠ 0 then
      some req.presencePenalty else none,
    seed := req.seed,
    messages := req.messages.map openaiMessageToUnified,
    tools := req.tools.filterMap (fun (tool : OAITool) =>
      tool.function.map (fun f =>
        { type := tool.type, name := f.name, description := f.description,
          parameters := convertAnyToMap f.parameters })),
    toolChoice := match req.toolChoice with
      | some (.str tc) => tc
      | some (.choice tc) => tc.function.name
      | none => "",
    responseFormat := match req.responseFormat with
      | some rf =>
        some { type := rf.type,
               schema := match rf.jsonSchema with
                 | some js => some [("name", .str js.name),
                                    ("description", .str js.description),
                                    ("strict", .bool js.strict)]
                 | none => none }
      | none => none }

/-- `OpenAITransformer.ToUnified`: validation first, then field mapping. -/
def openaiToUnified (req : ChatCompletionRequest) : Except GoError UnifiedRequest :=
  match openaiValidateRequest req with
  | some e => .error (.wrapped "validation failed" e)
  | none => .ok (openaiMapToIR req)

/-- One iteration of the messages loop of `OpenAITransformer.FromUnified`.
Same rendering conventions as `openaiMessageToUnified`. -/
def openaiMessageFromUnified (m : UnifiedMessage) : OAIChatCompletionMessage :=
  { role := m.role,
    name := m.name,
    content := m.content,
    multiContent :=
      if m.content = "" then
        m.parts.map (fun (part : UnifiedMessagePart) =>
          { type := part.type, text := part.text,
            imageURL := part.imageURL.map (fun iu =>
              { url := iu.url, detail := iu.detail }) })
      else [],
    toolCalls := m.toolCalls.map (fun (tc : UnifiedToolCall) =>
      { id := tc.id, type := tc.type,
        function := { name := tc.name, arguments := tc.arguments } }),
    toolCallID := m.toolCallID }

/-- `OpenAITransformer.FromUnified` (never returns an error).  Guards
that only skip writing the zero value are collapsed into plain copies. -/
def openaiFromUnified (u : UnifiedRequest) : ChatCompletionRequest :=
  { model := u.model,
    maxTokens := u.maxTokens,
    stream := u.stream,
    stop := u.stopSequences,
    user := u.user,
    temperature := match u.temperature with
      | some v => v
      | none => 0,
    topP := match u.topP with
      | some v => v
      | none => 0,
    frequencyPenalty := match u.frequencyPenalty with
      | some v => v
      | none => 0,
    presencePenalty := match u.presencePenalty with
      | some v => v
      | none => 0,
    seed := u.seed,
    messages := u.messages.map openaiMessageFromUnified,
    tools := u.tools.map (fun (t : UnifiedTool) =>
      { type := t.type,
        function := some { name := t.name, description := t.description,
                           parameters := goValOfMap t.parameters } }),
    toolChoice :=
      if u.toolChoice ≠ "" then
        if u.toolChoice = "auto" ∨ u.toolChoice = "none" then
          some (.str u.toolChoice)
        else
          some (.choice { type := "function", function := { name := u.toolChoice } })
      else none,
    responseFormat := match u.responseFormat with
      | some rf => some { type := rf.type }
      | none => none }

/-- One iteration of the choices loop of
`OpenAITransformer.ResponseToUnified`. -/
def openaiChoiceToUnified (choice : OAIChatCompletionChoice) : UnifiedChoice :=
  { index := choice.index,
    finishReason := choice.finishReason,
    message :=
      { role := choice.message.role,
        content := choice.message.content,
        name := choice.message.name,
        parts := choice.message.multiContent.map (fun (part : OAIChatMessagePart) =>
          { type := part.type, text := part.text,
            imageURL := part.imageURL.map (fun iu =>
              { url := iu.url, detail := iu.detail }) }),
        toolCalls := choice.message.toolCalls.map (fun (tc : OAIToolCall) =>
          { id := tc.id, type := tc.type, name := tc.function.name,
            arguments := tc.function.arguments }) },
    logProbs := match choice.logProbs with
      | some lp =>
        if lp.content.length > 0 then
          some { content := lp.content.map (fun (p : OAILogProb) =>
            { token := p.token, logProb := p.logProb, bytes := p.bytes }) }
        else none
      | none => none }

/-- `OpenAITransformer.ResponseToUnified`. -/
def openaiResponseToUnified (resp : ChatCompletionResponse) : UnifiedResponse :=
  { id := resp.id, object := resp.object, created := resp.created,
    model := resp.model, provider := "openai",
    systemFingerprint := resp.systemFingerprint,
    usage := some { promptTokens := resp.usage.promptTokens,
                    completionTokens := resp.usage.completionTokens,
                    totalTokens := resp.usage.totalTokens },
    choices := resp.choices.map openaiChoiceToUnified }

/-! ## Payloads, transformers and the registry (hub-and-spoke design) -/

/-- A provider payload carried through the registry's `interface{}`
arguments. -/
inductive Payload where
  | openaiRequest (r : ChatCompletionRequest) : Payload
  | geminiRequest (r : GeminiChatRequest) : Payload
  | claudeRequest (r : ClaudeRequest) : Payload
  | openaiResponse (r : ChatCompletionResponse) : Payload
  | geminiResponse (r : GeminiChatResponse) : Payload
  | claudeResponse (r : ClaudeResponse) : Payload
deriving DecidableEq

/-- The `Transformer` interface of the hub-and-spoke design. -/
structure Transformer where
  provider : String
  toUnified : Payload → Except GoError UnifiedRequest
  fromUnified : UnifiedRequest → Except GoError Payload
  responseToUnified : Payload → Except GoError UnifiedResponse
  responseFromUnified : UnifiedResponse → Except GoError Payload
  validateRequest : Payload → Option GoError

/-- `TransformationPair`. -/
structure TransformationPair where
  source : String
  target : String
deriving DecidableEq

/-- `TransformationRegistry`: the provider → adapter map, modelled as an
association list with unique keys. -/
structure TransformationRegistry where
  transformers : List (String × Transformer) := []

/-- Go map assignment `m[k] = v`: replaces an existing binding, appends
otherwise. -/
def goMapAssign (m : List (String × Transformer)) (k : String) (v : Transformer) :
    List (String × Transformer) :=
  if (m.lookup k).isSome then
    m.map (fun p => if p.1 = k then (k, v) else p)
  else m ++ [(k, v)]

/-- `TransformationRegistry.Register`. -/
def registryRegister (r : TransformationRegistry) (t : Transformer) :
    TransformationRegistry :=
  { transformers := goMapAssign r.transformers t.provider t }

/-- Go map read `r.transformers[provider]`. -/
def registryLookup (r : TransformationRegistry) (provider : String) : Option Transformer :=
  r.transformers.lookup provider

/-- `TransformationRegistry.Transform`. -/
def registryTransform (r : TransformationRegistry) (sourceProvider targetProvider : String)
    (request : Payload) : Except GoError Payload :=
  match registryLookup r sourceProvider with
  | none => .error (.unifiedErr "transformer_not_found"
      ("transformer not found for source provider: " ++ sourceProvider) 0)
  | some sourceTransformer =>
    match registryLookup r targetProvider with
    | none => .error (.unifiedErr "transformer_not_found"
        ("transformer not found for target provider: " ++ targetProvider) 0)
    | some targetTransformer =>
      match sourceTransformer.toUnified request with
      | .error e => .error e
      | .ok unified => targetTransformer.fromUnified unified

/-- `TransformationRegistry.TransformResponse`. -/
def registryTransformResponse (r : TransformationRegistry)
    (sourceProvider targetProvider : String) (response : Payload) :
    Except GoError Payload :=
  match registryLookup r sourceProvider with
  | none => .error (.unifiedErr "transformer_not_found"
      ("transformer not found for source provider: " ++ sourceProvider) 0)
  | some sourceTransformer =>
    match registryLookup r targetProvider with
    | none => .error (.unifiedErr "transformer_not_found"
        ("transformer not found for target provider: " ++ targetProvider) 0)
    | some targetTransformer =>
      match sourceTransformer.responseToUnified response with
      | .error e => .error e
      | .ok unified => targetTransformer.responseFromUnified unified

/-- `TransformationRegistry.GetSupportedProviders` (map iteration order
is arbitrary in Go; the registration order is as good as any). -/
def getSupportedProviders (r : TransformationRegistry) : List String :=
  r.transformers.map Prod.fst

/-- `TransformationRegistry.GetAvailableTransformations`: the nested
loop over registered providers, skipping the self-pairs. -/
def getAvailableTransformations (r : TransformationRegistry) : List TransformationPair :=
  let providers := r.transformers.map Prod.fst
  providers.flatMap (fun source =>
    providers.filterMap (fun target =>
      if source ≠ target then some { source := source, target := target } else none))

/-- `GeminiTransformer.ResponseFromUnified` (never returns an error).
Guards that only skip writing the zero value are collapsed. -/
def geminiResponseFromUnified (u : UnifiedResponse) : GeminiChatResponse :=
  { usageMetadata := match u.usage with
      | some usage =>
        { promptTokenCount := usage.promptTokens,
          candidatesTokenCount := usage.completionTokens,
          totalTokenCount := usage.totalTokens }
      | none => {},
    candidates := u.choices.map (fun (choice : UnifiedChoice) =>
      { index := choice.index,
        content :=
          { role := convertUnifiedRoleToGemini choice.message.role,
            parts :=
              (if choice.message.content ≠ "" then [{ text := choice.message.content }] else []) ++
              choice.message.parts.filterMap convertUnifiedPartToGemini ++
              choice.message.toolCalls.map (fun (tc : UnifiedToolCall) =>
                { functionCall := some { functionName := tc.name,
                                         arguments := goValOfMap tc.arguments } }) },
        finishReason :=
          if choice.finishReason ≠ "" then
            some (convertUnifiedFinishReasonToGemini choice.finishReason)
          else none }) }

/-- `OpenAITransformer.ResponseFromUnified` (never returns an error).
Guards that only skip writing the zero value are collapsed. -/
def openaiResponseFromUnified (u : UnifiedResponse) : ChatCompletionResponse :=
  { id := u.id, object := u.object, created := u.created, model := u.model,
    systemFingerprint := u.systemFingerprint,
    usage := match u.usage with
      | some usage =>
        { promptTokens := usage.promptTokens,
          completionTokens := usage.completionTokens,
          totalTokens := usage.totalTokens }
      | none => {},
    choices := u.choices.map (fun (choice : UnifiedChoice) =>
      { index := choice.index,
        finishReason := choice.finishReason,
        message :=
          { role := choice.message.role,
            content := choice.message.content,
            name := choice.message.name,
            multiContent := choice.message.parts.map (fun (part : UnifiedMessagePart) =>
              { type := part.type, text := part.text,
                imageURL := part.imageURL.map (fun iu =>
                  { url := iu.url, detail := iu.detail }) }),
            toolCalls := choice.message.toolCalls.map (fun (tc : UnifiedToolCall) =>
              { id := tc.id, type := tc.type,
                function := { name := tc.name, arguments := tc.arguments } }) } }) }

/-- The OpenAI adapter as a registered `Transformer`: the `interface{}`
type assertions of the Go methods become the payload match. -/
def openaiTransformer : Transformer :=
  { provider := "openai",
    toUnified := fun request => match request with
      | .openaiRequest r => openaiToUnified r
      | _ => .error (.errorString "invalid request type for OpenAI transformer"),
    fromUnified := fun u => .ok (.openaiRequest (openaiFromUnified u)),
    responseToUnified := fun response => match response with
      | .openaiResponse r => .ok (openaiResponseToUnified r)
      | _ => .error (.errorString "invalid response type for OpenAI transformer"),
    responseFromUnified := fun u => .ok (.openaiResponse (openaiResponseFromUnified u)),
    validateRequest := fun request => match request with
      | .openaiRequest r => openaiValidateRequest r
      | _ => some (.errorString "invalid request type for OpenAI transformer") }

/-- The Gemini adapter as a registered `Transformer`. -/
def geminiTransformer : Transformer :=
  { provider := "gemini",
    toUnified := fun request => match request with
      | .geminiRequest r => geminiToUnified r
      | _ => .error (.errorString "invalid request type for Gemini transformer"),
    fromUnified := fun u => .ok (.geminiRequest (geminiFromUnified u)),
    responseToUnified := fun response => match response with
      | .geminiResponse r => .ok (geminiResponseToUnified r)
      | _ => .error (.errorString "invalid response type for Gemini transformer"),
    responseFromUnified := fun u => .ok (.geminiResponse (geminiResponseFromUnified u)),
    validateRequest := fun request => match request with
      | .geminiRequest r => geminiValidateRequest r
      | _ => some (.errorString "invalid request type for Gemini transformer") }

/-- The Claude adapter as a registered `Transformer`. -/
def claudeTransformer : Transformer :=
  { provider := "claude",
    toUnified := fun request => match request with
      | .claudeRequest r => claudeToUnified r
      | _ => .error (.errorString "invalid request type for Claude transformer"),
    fromUnified := fun u => .ok (.claudeRequest (claudeFromUnified u)),
    responseToUnified := fun response => match response with
      | .claudeResponse r => .ok (claudeResponseToUnified r)
      | _ => .error (.errorString "invalid response type for Claude transformer"),
    responseFromUnified := fun u => .ok (.claudeResponse (claudeResponseFromUnified u)),
    validateRequest := fun request => match request with
      | .claudeRequest r => claudeValidateRequest r
      | _ => some (.errorString "invalid request type for Claude transformer") }

/-! ## Predicates for the lossless-field round-trip claims

"Built only from fields every provider supports": a model id, plain-text
messages and a max-token budget (spec §8).  Role symmetry under
round-trip is promised for the roles `user` and `assistant` (spec §4.1),
so the chat predicates restrict to those. -/

/-- An IR message that is a plain-text `user`/`assistant` turn. -/
def PlainChatMsg (m : UnifiedMessage) : Prop :=
  (m.role = "user" ∨ m.role = "assistant") ∧ m.content ≠ "" ∧ m.name = "" ∧
  m.parts = [] ∧ m.toolCalls = [] ∧ m.toolCallID = ""

instance (m : UnifiedMessage) : Decidable (PlainChatMsg m) := by
  unfold PlainChatMsg; infer_instance

/-- An IR request built only from a model id, plain-text chat messages
and a max-token budget (all other fields at their zero values; the
budget is positive and representable, so the Go `uint`/`int` conversions
are lossless). -/
def SimpleIR (u : UnifiedRequest) : Prop :=
  u.model ≠ "" ∧ u.messages ≠ [] ∧ (∀ m ∈ u.messages, PlainChatMsg m) ∧
  0 < u.maxTokens ∧ u.maxTokens < 2 ^ 63 ∧
  u.systemPrompt = "" ∧ u.temperature = none ∧ u.topP = none ∧ u.stream = false ∧
  u.tools = [] ∧ u.toolChoice = "" ∧ u.stopSequences = [] ∧ u.responseFormat = none ∧
  u.seed = none ∧ u.frequencyPenalty = none ∧ u.presencePenalty = none ∧ u.user = ""

instance (u : UnifiedRequest) : Decidable (SimpleIR u) := by
  unfold SimpleIR; infer_instance

/-- A plain-text `user`/`assistant` OpenAI message. -/
def SimpleOAIMsg (m : OAIChatCompletionMessage) : Prop :=
  (m.role = "user" ∨ m.role = "assistant") ∧ m.content ≠ "" ∧ m.name = "" ∧
  m.multiContent = [] ∧ m.toolCalls = [] ∧ m.toolCallID = ""

instance (m : OAIChatCompletionMessage) : Decidable (SimpleOAIMsg m) := by
  unfold SimpleOAIMsg; infer_instance

/-- An OpenAI request built only from model, plain-text chat messages
and a max-token budget. -/
def SimpleOAI (p : ChatCompletionRequest) : Prop :=
  p.model ≠ "" ∧ p.messages ≠ [] ∧ (∀ m ∈ p.messages, SimpleOAIMsg m) ∧
  0 < p.maxTokens ∧ p.maxTokens < 2 ^ 63 ∧ p.maxCompletionTokens = 0

instance (p : ChatCompletionRequest) : Decidable (SimpleOAI p) := by
  unfold SimpleOAI; infer_instance

/-- A plain-text `user`/`assistant` Claude message (string content). -/
def SimpleClaudeMsg (m : ClaudeMessage) : Prop :=
  (m.role = "user" ∨ m.role = "assistant") ∧
  m.isStringContent = true ∧ m.getStringContent ≠ ""

instance (m : ClaudeMessage) : Decidable (SimpleClaudeMsg m) := by
  unfold SimpleClaudeMsg; infer_instance

/-- A Claude request built only from model, plain-text chat messages and
a max-token budget (no legacy prompt). -/
def SimpleClaude (p : ClaudeRequest) : Prop :=
  p.model ≠ "" ∧ p.prompt = "" ∧ p.messages ≠ [] ∧
  (∀ m ∈ p.messages, SimpleClaudeMsg m) ∧ p.maxTokens ≠ 0

instance (p : ClaudeRequest) : Decidable (SimpleClaude p) := by
  unfold SimpleClaude; infer_instance

/-- A Gemini content entry that is a plain-text `user`/`model` turn:
nonempty all-text parts, no media, no function calls. -/
def SimpleGemContent (c : GeminiChatContent) : Prop :=
  (c.role = "user" ∨ c.role = "model") ∧ c.parts ≠ [] ∧
  (∀ part ∈ c.parts, part.text ≠ "" ∧ part.inlineData = none ∧
    part.fileData = none ∧ part.functionCall = none)

instance (c : GeminiChatContent) : Decidable (SimpleGemContent c) := by
  unfold SimpleGemContent; infer_instance

/-- A Gemini request built only from plain-text chat contents and a
max-token budget. -/
def SimpleGem (p : GeminiChatRequest) : Prop :=
  p.contents ≠ [] ∧ (∀ c ∈ p.contents, SimpleGemContent c) ∧
  0 < p.generationConfig.maxOutputTokens ∧
  (p.generationConfig.maxOutputTokens : Int) < 2 ^ 63

instance (p : GeminiChatRequest) : Decidable (SimpleGem p) := by
  unfold SimpleGem; infer_instance

/-- The observation the round-trip claim compares: message count, role
sequence and text content of an OpenAI payload. -/
def oaiSig (p : ChatCompletionRequest) : List (String × String) :=
  p.messages.map (fun m => (m.role, m.content))

/-- Message count, role sequence and text content of a Claude payload
(plain-text payloads carry string content). -/
def claudeSig (p : ClaudeRequest) : List (String × String) :=
  p.messages.map (fun m => (m.role, m.getStringContent))

/-- Message count, role sequence and concatenated text content of a
Gemini payload. -/
def gemSig (p : GeminiChatRequest) : List (String × String) :=
  p.contents.map (fun c => (c.role, extractTextFromParts c.parts))

/-! ## Helper lemmas -/

theorem goUintOfInt_pos_eq {x : Int} (h0 : 0 < x) (h1 : x < 2 ^ 63) :
    (goUintOfInt x : Int) = x := by
  unfold goUintOfInt
  rw [Int.emod_eq_of_lt (le_of_lt h0) (lt_trans h1 (by norm_num))]
  exact Int.toNat_of_nonneg (le_of_lt h0)

theorem goIntOfUint_small_eq {n : Nat} (h : (n : Int) < 2 ^ 63) :
    goIntOfUint n = n := by
  unfold goIntOfUint
  have hlow : (0 : Int) ≤ (n : Int) + 2 ^ 63 := by positivity
  have hhigh : (n : Int) + 2 ^ 63 < 2 ^ 64 := by omega
  rw [Int.emod_eq_of_lt hlow hhigh]
  ring

theorem goUintOfInt_roundtrip {x : Int} (h0 : 0 < x) (h1 : x < 2 ^ 63) :
    goIntOfUint (goUintOfInt x) = x := by
  have := goUintOfInt_pos_eq h0 h1
  rw [goIntOfUint_small_eq (by rw [this]; exact h1), this]

theorem goUintOfInt_ne_zero {x : Int} (h0 : 0 < x) (h1 : x < 2 ^ 63) :
    goUintOfInt x ≠ 0 := by
  intro hz
  have := goUintOfInt_pos_eq h0 h1
  rw [hz] at this
  simp at this
  omega


theorem geminiToUnified_ok_messages {req : GeminiChatRequest} {u : UnifiedRequest}
    (h : geminiToUnified req = .ok u) :
    u.messages = req.contents.map geminiContentToUnifiedMessage := by
  unfold geminiToUnified at h
  cases hv : geminiValidateRequest req with
  | some e => rw [hv] at h; exact absurd h (by simp)
  | none =>
    rw [hv] at h
    simp only [Except.ok.injEq] at h
    rw [← h]
    rfl

theorem geminiContentMsg_toolCall_id (c : GeminiChatContent) :
    ∀ tc ∈ (geminiContentToUnifiedMessage c).toolCalls, tc.id = generateToolCallID := by
  intro tc htc
  unfold geminiContentToUnifiedMessage at htc
  split at htc
  · simp only [List.mem_filterMap] at htc
    obtain ⟨part, -, hpart⟩ := htc
    cases hfc : part.functionCall with
    | some fc =>
      rw [hfc] at hpart
      have h := Option.some.inj hpart
      rw [← h]
    | none => rw [hfc] at hpart; exact absurd hpart (by simp)
  · simp at htc

theorem geminiCandidateChoice_toolCall_id (i : Nat) (cand : GeminiChatCandidate) :
    ∀ tc ∈ (geminiCandidateToUnifiedChoice i cand).message.toolCalls,
      tc.id = generateToolCallID := by
  intro tc htc
  unfold geminiCandidateToUnifiedChoice at htc
  simp only [List.mem_filterMap] at htc
  obtain ⟨part, -, hpart⟩ := htc
  cases hfc : part.functionCall with
  | some fc =>
    rw [hfc] at hpart
    have h := Option.some.inj hpart
    rw [← h]
  | none => rw [hfc] at hpart; exact absurd hpart (by simp)

/-- **C9** (confirmed): `generateToolCallID` ignores its surroundings and
always produces `"call_" ++ len("1234567890") = "call_10"`, so every tool
call the Gemini adapter synthesizes — request side and response side —
carries the same constant, non-unique id `"call_10"`. -/
theorem gemini_synthesized_tool_call_ids_constant :
    generateToolCallID = "call_10" ∧
    (∀ (req : GeminiChatRequest) (u : UnifiedRequest), geminiToUnified req = .ok u →
      ∀ m ∈ u.messages, ∀ tc ∈ m.toolCalls, tc.id = "call_10") ∧
    (∀ resp : GeminiChatResponse, ∀ c ∈ (geminiResponseToUnified resp).choices,
      ∀ tc ∈ c.message.toolCalls, tc.id = "call_10") := by
  have hid : generateToolCallID = "call_10" := by decide
  refine ⟨hid, ?_, ?_⟩
  · intro req u h m hm tc htc
    rw [geminiToUnified_ok_messages h] at hm
    simp only [List.mem_map] at hm
    obtain ⟨c, -, rfl⟩ := hm
    rw [geminiContentMsg_toolCall_id c tc htc, hid]
  · intro resp c hc tc htc
    unfold geminiResponseToUnified at hc
    simp only [List.mem_map] at hc
    obtain ⟨p, -, rfl⟩ := hc
    rw [geminiCandidateChoice_toolCall_id p.1 p.2 tc htc, hid]

/-- **C9 witness**: on a concrete Gemini request with two distinct
function calls, the theorem applies and pins the id of the second
synthesized tool call (both get `"call_10"`). -/
theorem gemini_synthesized_tool_call_ids_constant_witness :
    ({ id := "call_10", type := "function", name := "f2" } : UnifiedToolCall).id =
      "call_10" :=
  gemini_synthesized_tool_call_ids_constant.2.1
    { contents := [{ role := "user",
                     parts := [{ functionCall := some { functionName := "f1" } },
                               { functionCall := some { functionName := "f2" } }] }] }
    { model := "gemini",
      messages := [{ role := "user",
                     toolCalls := [{ id := "call_10", type := "function", name := "f1" },
                                   { id := "call_10", type := "function", name := "f2" }] }] }
    (by rfl)
    { role := "user",
      toolCalls := [{ id := "call_10", type := "function", name := "f1" },
                    { id := "call_10", type := "function", name := "f2" }] }
    (by decide)
    { id := "call_10", type := "function", name := "f2" }
    (by decide)

instance {ε α : Type} [DecidableEq ε] [DecidableEq α] : DecidableEq (Except ε α) :=
  fun a b =>
    match a, b with
    | .ok x, .ok y =>
      if h : x = y then .isTrue (by rw [h])
      else .isFalse (fun hh => h (Except.ok.inj hh))
    | .error x, .error y =>
      if h : x = y then .isTrue (by rw [h])
      else .isFalse (fun hh => h (Except.error.inj hh))
    | .ok _, .error _ => .isFalse (fun h => Except.noConfusion h)
    | .error _, .ok _ => .isFalse (fun h => Except.noConfusion h)

/-- **C4** (confirmed): an IR request whose only tool is named
`"google_search"`, `"web_search"` or `"search"` makes the Gemini adapter
(the provider with a native search tool) emit exactly the native
`GoogleSearch` built-in tool declaration — no function declaration. -/
theorem gemini_fromIR_builtin_search_tool (u : UnifiedRequest) (tool : UnifiedTool)
    (htools : u.tools = [tool])
    (hname : tool.name = "google_search" ∨ tool.name = "web_search" ∨ tool.name = "search") :
    (geminiFromUnified u).tools = [{ googleSearch := some (.obj []) }] := by
  have : (geminiFromUnified u).tools = geminiToolsFromUnified u.tools := rfl
  rw [this, htools]
  unfold geminiToolsFromUnified
  rcases hname with h | h | h <;> simp [h]

/-- **C4 witness**: concrete single-tool requests for each alias. -/
theorem gemini_fromIR_builtin_search_tool_witness :
    (geminiFromUnified { tools := [{ type := "function", name := "google_search" }] }).tools =
        [{ googleSearch := some (.obj []) }] ∧
    (geminiFromUnified { tools := [{ type := "function", name := "web_search" }] }).tools =
        [{ googleSearch := some (.obj []) }] ∧
    (geminiFromUnified { tools := [{ type := "function", name := "search" }] }).tools =
        [{ googleSearch := some (.obj []) }] :=
  ⟨gemini_fromIR_builtin_search_tool _ _ rfl (.inl rfl),
   gemini_fromIR_builtin_search_tool _ _ rfl (.inr (.inl rfl)),
   gemini_fromIR_builtin_search_tool _ _ rfl (.inr (.inr rfl))⟩

/-- **C2 counterexample**: a Gemini response finishing with the
unrecognized reason `"OTHER"` is converted to an IR choice whose finish
reason is `"OTHER"` — outside the canonical vocabulary and not
`"content_filter"` — because `convertGeminiFinishReason` passes unknown
reasons through unchanged. -/
theorem gemini_unknown_finish_reason_not_content_filter :
    ((geminiResponseToUnified
        { candidates := [{ content := { role := "model", parts := [{ text := "hi" }] },
                           finishReason := some "OTHER" }] }).choices.map
      UnifiedChoice.finishReason) = ["OTHER"] ∧
    ("OTHER" ≠ "stop" ∧ "OTHER" ≠ "length" ∧ "OTHER" ≠ "tool_calls" ∧
     "OTHER" ≠ "content_filter") := by
  constructor
  · rfl
  · refine ⟨by decide, by decide, by decide, by decide⟩

/-- **C2 amended**: the Gemini lookup table maps `STOP`, `MAX_TOKENS`,
`SAFETY` and `RECITATION` to the canonical values and passes every other
provider reason through unchanged (it does not fall back to
`content_filter`); the Claude adapter does not map stop reasons at all —
every IR choice it produces carries the provider stop reason verbatim. -/
theorem finish_reason_mapping_amended :
    (convertGeminiFinishReason "STOP" = "stop" ∧
     convertGeminiFinishReason "MAX_TOKENS" = "length" ∧
     convertGeminiFinishReason "SAFETY" = "content_filter" ∧
     convertGeminiFinishReason "RECITATION" = "content_filter") ∧
    (∀ r : String, r ≠ "STOP" → r ≠ "MAX_TOKENS" → r ≠ "SAFETY" → r ≠ "RECITATION" →
      convertGeminiFinishReason r = r) ∧
    (∀ resp : ClaudeResponse, ∀ c ∈ (claudeResponseToUnified resp).choices,
      c.finishReason = resp.stopReason) := by
  refine ⟨⟨rfl, rfl, rfl, rfl⟩, ?_, ?_⟩
  · intro r h1 h2 h3 h4
    unfold convertGeminiFinishReason
    rw [if_neg h1, if_neg h2, if_neg h3, if_neg h4]
  · intro resp c hc
    unfold claudeResponseToUnified at hc
    cases herr : resp.error with
    | some err => rw [herr] at hc; simp at hc
    | none =>
      rw [herr] at hc
      simp only [] at hc
      split at hc
      · simp only [List.mem_singleton] at hc
        rw [hc]
      · split at hc
        · simp only [List.mem_singleton] at hc
          rw [hc]
        · cases husage : resp.usage with
          | some usage => rw [husage] at hc; simp at hc
          | none => rw [husage] at hc; simp at hc

/-- **C2 amended witness**: concrete instantiations — an unknown Gemini
reason passes through, and a Claude response stopping with `end_turn`
yields an IR finish reason `end_turn`. -/
theorem finish_reason_mapping_amended_witness :
    convertGeminiFinishReason "BLOCKLIST" = "BLOCKLIST" ∧
    ({ index := 0,
       message := { role := "assistant", content := "hi" },
       finishReason := "end_turn" } : UnifiedChoice).finishReason = "end_turn" :=
  ⟨finish_reason_mapping_amended.2.1 "BLOCKLIST"
      (by decide) (by decide) (by decide) (by decide),
   finish_reason_mapping_amended.2.2
      { completion := "hi", stopReason := "end_turn", role := "assistant" }
      _ (by decide)⟩

/-- **C3 counterexample**: Gemini reports `total = 3` with
`prompt = 1, candidates = 1` (e.g. thought tokens included only in the
total); the adapter copies all three verbatim, so the produced
UnifiedUsage violates `total = prompt + completion`. -/
theorem gemini_usage_total_not_sum :
    (geminiResponseToUnified
        { usageMetadata := { promptTokenCount := 1, candidatesTokenCount := 1,
                             totalTokenCount := 3 } }).usage =
      some { promptTokens := 1, completionTokens := 1, totalTokens := 3 } ∧
    (3 : Int) ≠ 1 + 1 := ⟨rfl, by decide⟩

/-- **C3 amended**: only the Claude adapter computes
`total = prompt + completion` (it sums the provider's input and output
counts); the Gemini and OpenAI adapters copy the provider-reported
prompt/completion/total figures verbatim, so for them the invariant
holds only if the provider reported it; no adapter checks the
cache/reasoning sub-count bound. -/
theorem usage_invariant_amended :
    (∀ (resp : ClaudeResponse) (usage : UnifiedUsage),
        (claudeResponseToUnified resp).usage = some usage →
        usage.totalTokens = usage.promptTokens + usage.completionTokens) ∧
    (∀ (resp : GeminiChatResponse) (usage : UnifiedUsage),
        (geminiResponseToUnified resp).usage = some usage →
        usage.promptTokens = resp.usageMetadata.promptTokenCount ∧
        usage.completionTokens = resp.usageMetadata.candidatesTokenCount ∧
        usage.totalTokens = resp.usageMetadata.totalTokenCount) ∧
    (∀ resp : ChatCompletionResponse,
        (openaiResponseToUnified resp).usage =
          some { promptTokens := resp.usage.promptTokens,
                 completionTokens := resp.usage.completionTokens,
                 totalTokens := resp.usage.totalTokens }) := by
  refine ⟨?_, ?_, fun resp => rfl⟩
  · intro resp usage h
    unfold claudeResponseToUnified at h
    cases herr : resp.error with
    | some err => rw [herr] at h; simp at h
    | none =>
      rw [herr] at h
      simp only [] at h
      split at h
      · cases husage : resp.usage with
        | some cu =>
          rw [husage] at h
          simp only [Option.some.injEq] at h
          rw [← h]
        | none => rw [husage] at h; simp at h
      · split at h
        · cases husage : resp.usage with
          | some cu =>
            rw [husage] at h
            simp only [Option.some.injEq] at h
            rw [← h]
          | none => rw [husage] at h; simp at h
        · cases husage : resp.usage with
          | some cu =>
            rw [husage] at h
            simp only [Option.some.injEq] at h
            rw [← h]
          | none => rw [husage] at h; simp at h
  · intro resp usage h
    unfold geminiResponseToUnified at h
    split at h
    · simp only [Option.some.injEq] at h
      rw [← h]
      exact ⟨rfl, rfl, rfl⟩
    · simp at h

/-- **C3 amended witness**: a concrete Claude response with cache reads
included satisfies `total = prompt + completion`; a concrete Gemini
response is copied verbatim. -/
theorem usage_invariant_amended_witness :
    ({ promptTokens := 7, completionTokens := 5, totalTokens := 12,
       cacheReadTokens := 30 } : UnifiedUsage).totalTokens =
      ({ promptTokens := 7, completionTokens := 5, totalTokens := 12,
         cacheReadTokens := 30 } : UnifiedUsage).promptTokens +
      ({ promptTokens := 7, completionTokens := 5, totalTokens := 12,
         cacheReadTokens := 30 } : UnifiedUsage).completionTokens ∧
    ({ promptTokens := 1, completionTokens := 1, totalTokens := 3 } :
        UnifiedUsage).promptTokens = 1 :=
  ⟨usage_invariant_amended.1
      { usage := some { inputTokens := 7, outputTokens := 5, cacheReadInputTokens := 30 } }
      _ (by rfl),
   (usage_invariant_amended.2.1
      { usageMetadata := { promptTokenCount := 1, candidatesTokenCount := 1,
                           totalTokenCount := 3 } }
      _ (by rfl)).1⟩


theorem claudeResponseToUnified_on_error (resp : ClaudeResponse) (err : ClaudeError)
    (he : resp.error = some err) :
    (claudeResponseToUnified resp).error = some { type := err.type, message := err.message } ∧
    (claudeResponseToUnified resp).choices = [] := by
  unfold claudeResponseToUnified
  rw [he]
  exact ⟨rfl, rfl⟩

theorem claudeResponseToUnified_error_none (resp : ClaudeResponse)
    (he : resp.error = none) :
    (claudeResponseToUnified resp).error = none := by
  unfold claudeResponseToUnified
  rw [he]
  simp only []
  split
  · cases hu : resp.usage <;> rfl
  · split
    · cases hu : resp.usage <;> rfl
    · cases hu : resp.usage <;> rfl

/-- **C8** (confirmed): in every adapter's response-to-IR conversion, a
non-nil `Error` implies an empty `Choices` sequence.  Claude returns
early on a provider error before building any choice; Gemini and OpenAI
never set `Error` at all, so the implication holds vacuously for them. -/
theorem response_error_implies_no_choices :
    (∀ resp : ClaudeResponse, (claudeResponseToUnified resp).error ≠ none →
        (claudeResponseToUnified resp).choices = []) ∧
    (∀ resp : GeminiChatResponse, (geminiResponseToUnified resp).error ≠ none →
        (geminiResponseToUnified resp).choices = []) ∧
    (∀ resp : ChatCompletionResponse, (openaiResponseToUnified resp).error ≠ none →
        (openaiResponseToUnified resp).choices = []) := by
  refine ⟨?_, ?_, ?_⟩
  · intro resp herr
    cases he : resp.error with
    | some err => exact (claudeResponseToUnified_on_error resp err he).2
    | none => exact absurd (claudeResponseToUnified_error_none resp he) herr
  · intro resp herr
    exact absurd rfl herr
  · intro resp herr
    exact absurd rfl herr

/-- **C8 witness**: a concrete Claude error response has a non-nil error
and an empty choice list. -/
theorem response_error_implies_no_choices_witness :
    (claudeResponseToUnified
        { error := some { type := "overloaded_error", message := "try later" },
          content := [{ type := "text", text := some "partial" }] }).choices = [] :=
  response_error_implies_no_choices.1
    { error := some { type := "overloaded_error", message := "try later" },
      content := [{ type := "text", text := some "partial" }] }
    (by decide)

/-- **C10** (confirmed): the Claude response-from-IR conversion reads
only the choice at index 0 — the result on any response equals the
result after dropping every later choice. -/
theorem claude_response_fromIR_uses_only_first_choice
    (u : UnifiedResponse) (c : UnifiedChoice) (rest : List UnifiedChoice)
    (h : u.choices = c :: rest) :
    claudeResponseFromUnified u = claudeResponseFromUnified { u with choices := [c] } := by
  unfold claudeResponseFromUnified
  simp only [h]

/-- **C10 witness**: with two concrete choices, the second — including
its content, role and stop reason — is dropped. -/
theorem claude_response_fromIR_uses_only_first_choice_witness :
    claudeResponseFromUnified
        { id := "r1", model := "m",
          choices := [{ index := 0,
                        message := { role := "assistant", content := "first" },
                        finishReason := "end_turn" },
                      { index := 1,
                        message := { role := "assistant", content := "second" },
                        finishReason := "max_tokens" }] } =
      claudeResponseFromUnified
        { id := "r1", model := "m",
          choices := [{ index := 0,
                        message := { role := "assistant", content := "first" },
                        finishReason := "end_turn" }] } :=
  claude_response_fromIR_uses_only_first_choice
    { id := "r1", model := "m",
      choices := [{ index := 0,
                    message := { role := "assistant", content := "first" },
                    finishReason := "end_turn" },
                  { index := 1,
                    message := { role := "assistant", content := "second" },
                    finishReason := "max_tokens" }] }
    { index := 0, message := { role := "assistant", content := "first" },
      finishReason := "end_turn" }
    [{ index := 1, message := { role := "assistant", content := "second" },
       finishReason := "max_tokens" }]
    rfl

/-- **C5 counterexample**: the Claude adapter accepts a request with an
empty message list as long as the legacy `Prompt` field is set (and its
`ToUnified` proceeds to field mapping), so "for every provider adapter,
a request with an empty message list is rejected by validate" is false
as stated. -/
theorem claude_empty_messages_with_prompt_validates :
    claudeValidateRequest { model := "m", prompt := "hi", maxTokens := 5 } = none ∧
    ({ model := "m", prompt := "hi", maxTokens := 5 } : ClaudeRequest).messages = [] ∧
    claudeToUnified { model := "m", prompt := "hi", maxTokens := 5 } =
      .ok { model := "m", topP := some 0,
            messages := [{ role := "user", content := "hi" }] } := by
  refine ⟨by decide, rfl, by rfl⟩

/-- **C5 amended**: the OpenAI and Gemini adapters reject every request
with an empty message list; the Claude adapter rejects an empty message
list only when the legacy prompt is also empty.  In all three adapters
`ToUnified` runs validation first and returns the (wrapped) validation
error before any field mapping. -/
theorem empty_messages_validation_amended :
    (∀ req : ChatCompletionRequest, req.messages = [] →
        ∃ e, openaiValidateRequest req = some e) ∧
    (∀ req : GeminiChatRequest, req.contents = [] →
        ∃ e, geminiValidateRequest req = some e) ∧
    (∀ req : ClaudeRequest, req.messages = [] → req.prompt = "" →
        ∃ e, claudeValidateRequest req = some e) ∧
    (∀ (req : ChatCompletionRequest) (e : GoError), openaiValidateRequest req = some e →
        openaiToUnified req = .error (.wrapped "validation failed" e)) ∧
    (∀ (req : GeminiChatRequest) (e : GoError), geminiValidateRequest req = some e →
        geminiToUnified req = .error (.wrapped "validation failed" e)) ∧
    (∀ (req : ClaudeRequest) (e : GoError), claudeValidateRequest req = some e →
        claudeToUnified req = .error (.wrapped "validation failed" e)) := by
  refine ⟨?_, ?_, ?_, ?_, ?_, ?_⟩
  · intro req h
    unfold openaiValidateRequest
    split
    · exact ⟨_, rfl⟩
    · rw [if_pos (by rw [h]; rfl)]
      exact ⟨_, rfl⟩
  · intro req h
    unfold geminiValidateRequest
    rw [if_pos (by rw [h]; rfl)]
    exact ⟨_, rfl⟩
  · intro req hm hp
    unfold claudeValidateRequest
    split
    · exact ⟨_, rfl⟩
    · rw [if_pos ⟨by rw [hm]; rfl, hp⟩]
      exact ⟨_, rfl⟩
  · intro req e h
    unfold openaiToUnified
    rw [h]
  · intro req e h
    unfold geminiToUnified
    rw [h]
  · intro req e h
    unfold claudeToUnified
    rw [h]

/-- **C5 amended witness**: concrete empty-message requests for each
adapter fail validation, and `ToUnified` propagates the error. -/
theorem empty_messages_validation_amended_witness :
    openaiValidateRequest { model := "gpt-4" } =
      some (.errorString "messages cannot be empty") ∧
    geminiValidateRequest {} = some (.errorString "contents cannot be empty") ∧
    claudeValidateRequest { model := "c", maxTokens := 5 } =
      some (.errorString "either messages or prompt must be provided") ∧
    openaiToUnified { model := "gpt-4" } =
      .error (.wrapped "validation failed" (.errorString "messages cannot be empty")) := by
  refine ⟨?_, ?_, ?_, ?_⟩
  · obtain ⟨e, he⟩ := empty_messages_validation_amended.1 { model := "gpt-4" } rfl
    rw [he]
    cases he.symm.trans (by decide : openaiValidateRequest { model := "gpt-4" } =
      some (.errorString "messages cannot be empty"))
    rfl
  · obtain ⟨e, he⟩ := empty_messages_validation_amended.2.1 {} rfl
    rw [he]
    cases he.symm.trans (by decide : geminiValidateRequest {} =
      some (.errorString "contents cannot be empty"))
    rfl
  · obtain ⟨e, he⟩ := empty_messages_validation_amended.2.2.1
      { model := "c", maxTokens := 5 } rfl rfl
    rw [he]
    cases he.symm.trans (by decide : claudeValidateRequest { model := "c", maxTokens := 5 } =
      some (.errorString "either messages or prompt must be provided"))
    rfl
  · exact empty_messages_validation_amended.2.2.2.1 { model := "gpt-4" } _ (by decide)

/-- **C6** (confirmed): the registry returns the typed
`transformer_not_found` error whenever either provider is unregistered,
and with both registered its request (resp. response) result is exactly
the target adapter's from-IR step composed with the source adapter's
to-IR step. -/
theorem registry_transform_is_adapter_composition :
    (∀ (r : TransformationRegistry) (s t : String) (p : Payload),
        registryLookup r s = none →
        registryTransform r s t p = .error (.unifiedErr "transformer_not_found"
          ("transformer not found for source provider: " ++ s) 0)) ∧
    (∀ (r : TransformationRegistry) (s t : String) (p : Payload) (S : Transformer),
        registryLookup r s = some S → registryLookup r t = none →
        registryTransform r s t p = .error (.unifiedErr "transformer_not_found"
          ("transformer not found for target provider: " ++ t) 0)) ∧
    (∀ (r : TransformationRegistry) (s t : String) (p : Payload) (S T : Transformer),
        registryLookup r s = some S → registryLookup r t = some T →
        registryTransform r s t p = (S.toUnified p).bind T.fromUnified) ∧
    (∀ (r : TransformationRegistry) (s t : String) (p : Payload),
        registryLookup r s = none →
        registryTransformResponse r s t p = .error (.unifiedErr "transformer_not_found"
          ("transformer not found for source provider: " ++ s) 0)) ∧
    (∀ (r : TransformationRegistry) (s t : String) (p : Payload) (S : Transformer),
        registryLookup r s = some S → registryLookup r t = none →
        registryTransformResponse r s t p = .error (.unifiedErr "transformer_not_found"
          ("transformer not found for target provider: " ++ t) 0)) ∧
    (∀ (r : TransformationRegistry) (s t : String) (p : Payload) (S T : Transformer),
        registryLookup r s = some S → registryLookup r t = some T →
        registryTransformResponse r s t p =
          (S.responseToUnified p).bind T.responseFromUnified) := by
  refine ⟨?_, ?_, ?_, ?_, ?_, ?_⟩
  · intro r s t p hs
    unfold registryTransform
    rw [hs]
  · intro r s t p S hs ht
    unfold registryTransform
    rw [hs, ht]
  · intro r s t p S T hs ht
    unfold registryTransform
    rw [hs, ht]
    cases hx : S.toUnified p <;> simp [hx, Except.bind]
  · intro r s t p hs
    unfold registryTransformResponse
    rw [hs]
  · intro r s t p S hs ht
    unfold registryTransformResponse
    rw [hs, ht]
  · intro r s t p S T hs ht
    unfold registryTransformResponse
    rw [hs, ht]
    cases hx : S.responseToUnified p <;> simp [hx, Except.bind]

/-- **C6 witness**: an empty registry reports the typed error; a
two-adapter registry transforms an OpenAI request into the Claude shape
via exactly `claude.fromIR ∘ openai.toIR`. -/
theorem registry_transform_is_adapter_composition_witness :
    registryTransform { transformers := [] } "openai" "claude"
        (.openaiRequest { model := "gpt-4" }) =
      .error (.unifiedErr "transformer_not_found"
        ("transformer not found for source provider: " ++ "openai") 0) ∧
    registryTransform
        { transformers := [("openai", openaiTransformer), ("claude", claudeTransformer)] }
        "openai" "claude"
        (.openaiRequest { model := "gpt-4",
                          messages := [{ role := "user", content := "Hi" }],
                          maxTokens := 5 }) =
      (openaiTransformer.toUnified
          (.openaiRequest { model := "gpt-4",
                            messages := [{ role := "user", content := "Hi" }],
                            maxTokens := 5 })).bind claudeTransformer.fromUnified :=
  ⟨registry_transform_is_adapter_composition.1 { transformers := [] }
      "openai" "claude" (.openaiRequest { model := "gpt-4" }) rfl,
   registry_transform_is_adapter_composition.2.2.1
      { transformers := [("openai", openaiTransformer), ("claude", claudeTransformer)] }
      "openai" "claude"
      (.openaiRequest { model := "gpt-4",
                        messages := [{ role := "user", content := "Hi" }],
                        maxTokens := 5 })
      openaiTransformer claudeTransformer rfl rfl⟩

theorem filterMap_pair_eq (s : String) (ps : List String) :
    (ps.filterMap (fun t =>
        if s ≠ t then some ({ source := s, target := t } : TransformationPair) else none)) =
      (ps.filter (fun t => s ≠ t)).map (fun t => { source := s, target := t }) := by
  induction ps with
  | nil => rfl
  | cons a as ih =>
    rw [List.filterMap_cons, List.filter_cons]
    by_cases h : s = a
    · rw [if_neg (by simp [h]), if_neg (by simp [h]), ih]
    · rw [if_pos (show (s ≠ a) by exact h),
          if_pos (show decide (s ≠ a) = true by
            simp only [ne_eq, decide_eq_true_eq]; exact h),
          ih, List.map_cons]

theorem filter_ne_length (s : String) (ps : List String) (hnd : ps.Nodup) (hs : s ∈ ps) :
    (ps.filter (fun t => s ≠ t)).length = ps.length - 1 := by
  induction ps with
  | nil => cases hs
  | cons a as ih =>
    by_cases hsa : s = a
    · subst hsa
      have hnotin : s ∉ as := (List.nodup_cons.mp hnd).1
      have hall : as.filter (fun t => s ≠ t) = as := by
        apply List.filter_eq_self.mpr
        intro t ht
        simp only [ne_eq, decide_eq_true_eq]
        exact fun he => hnotin (he ▸ ht)
      rw [List.filter_cons_of_neg (by simp), hall, List.length_cons]
      omega
    · have hs' : s ∈ as := by
        rcases List.mem_cons.mp hs with h | h
        · exact absurd h hsa
        · exact h
      have hnd' := (List.nodup_cons.mp hnd).2
      have hlen : 0 < as.length := List.length_pos.mpr (List.ne_nil_of_mem hs')
      rw [List.filter_cons_of_pos (by simp only [ne_eq, decide_eq_true_eq]; exact hsa),
          List.length_cons, ih hnd' hs', List.length_cons]
      omega

theorem sum_map_const {α : Type} (l : List α) (f : α → Nat) (c : Nat)
    (h : ∀ a ∈ l, f a = c) : (l.map f).sum = l.length * c := by
  induction l with
  | nil => simp
  | cons a as ih =>
    have h1 := h a (by simp)
    have h2 := ih (fun x hx => h x (by simp [hx]))
    simp [h1, h2]
    ring

/-- **C7** (confirmed): with N distinctly-named registered providers the
available-transformations list is exactly the cross product minus the
self-pairs — it has N×(N−1) entries, each pair has distinct registered
endpoints, and every ordered pair of distinct registered providers
occurs. -/
theorem registry_available_pairs_cross_product (r : TransformationRegistry)
    (hnd : (getSupportedProviders r).Nodup) :
    (getAvailableTransformations r).length =
      (getSupportedProviders r).length * ((getSupportedProviders r).length - 1) ∧
    (∀ pair ∈ getAvailableTransformations r,
      pair.source ≠ pair.target ∧ pair.source ∈ getSupportedProviders r ∧
      pair.target ∈ getSupportedProviders r) ∧
    (∀ s ∈ getSupportedProviders r, ∀ t ∈ getSupportedProviders r, s ≠ t →
      ({ source := s, target := t } : TransformationPair) ∈
        getAvailableTransformations r) := by
  have hps : getSupportedProviders r = r.transformers.map Prod.fst := rfl
  refine ⟨?_, ?_, ?_⟩
  · unfold getAvailableTransformations
    rw [List.length_flatMap]
    have h : ∀ source ∈ r.transformers.map Prod.fst,
        ((r.transformers.map Prod.fst).filterMap (fun target =>
          if source ≠ target then
            some ({ source := source, target := target } : TransformationPair)
          else none)).length = (r.transformers.map Prod.fst).length - 1 := by
      intro source hsrc
      rw [filterMap_pair_eq, List.length_map]
      exact filter_ne_length source _ hnd hsrc
    simp only [Function.comp_def]
    rw [sum_map_const _ _ ((r.transformers.map Prod.fst).length - 1) h, hps]
  · intro pair hp
    unfold getAvailableTransformations at hp
    simp only [List.mem_flatMap, List.mem_filterMap] at hp
    obtain ⟨s, hs, t, ht, hpair⟩ := hp
    by_cases h : s ≠ t
    · rw [if_pos h] at hpair
      cases Option.some.inj hpair
      exact ⟨h, hs, ht⟩
    · rw [if_neg h] at hpair
      cases hpair
  · intro s hs t ht hst
    unfold getAvailableTransformations
    simp only [List.mem_flatMap, List.mem_filterMap]
    exact ⟨s, hs, t, ht, by rw [if_pos hst]⟩

/-- **C7 witness**: a registry with the three real adapters has exactly
3×2 = 6 pairs. -/
theorem registry_available_pairs_cross_product_witness :
    (getAvailableTransformations
        { transformers := [("openai", openaiTransformer), ("gemini", geminiTransformer),
                           ("claude", claudeTransformer)] }).length = 3 * (3 - 1) :=
  (registry_available_pairs_cross_product
      { transformers := [("openai", openaiTransformer), ("gemini", geminiTransformer),
                         ("claude", claudeTransformer)] }
      (by decide)).1

attribute [ext] UnifiedMessage
attribute [ext] UnifiedRequest
attribute [ext] OAIChatCompletionMessage
attribute [ext] ChatCompletionRequest
attribute [ext] ClaudeMessage
attribute [ext] ClaudeRequest
attribute [ext] GeminiChatGenerationConfig
attribute [ext] GeminiChatContent
attribute [ext] GeminiChatRequest

theorem role_gem_round (r : String) (h : r = "user" ∨ r = "assistant") :
    convertGeminiRoleToUnified (convertUnifiedRoleToGemini r) = r := by
  rcases h with rfl | rfl <;> rfl

theorem role_gem_round' (g : String) (h : g = "user" ∨ g = "model") :
    convertUnifiedRoleToGemini (convertGeminiRoleToUnified g) = g := by
  rcases h with rfl | rfl <;> rfl

theorem role_gem_chat (g : String) (h : g = "user" ∨ g = "model") :
    convertGeminiRoleToUnified g = "user" ∨ convertGeminiRoleToUnified g = "assistant" := by
  rcases h with rfl | rfl
  · exact .inl rfl
  · exact .inr rfl

theorem map_roundtrip {α : Type} (ms : List UnifiedMessage)
    (f : UnifiedMessage → α) (g : α → UnifiedMessage)
    (h : ∀ m ∈ ms, g (f m) = m) : (ms.map f).map g = ms := by
  rw [List.map_map]
  have h2 : ms.map (g ∘ f) = ms.map id := List.map_congr_left h
  simpa using h2

theorem openaiMessageToUnified_plain (m : OAIChatCompletionMessage) (h : SimpleOAIMsg m) :
    openaiMessageToUnified m = { role := m.role, content := m.content } := by
  obtain ⟨hr, hc, hn, hmc, htc, hid⟩ := h
  unfold openaiMessageToUnified
  rw [if_neg hc, htc, hn, hid]
  rfl

theorem openaiMessageFromUnified_plain (m : UnifiedMessage) (h : PlainChatMsg m) :
    openaiMessageFromUnified m = { role := m.role, content := m.content } := by
  obtain ⟨hr, hc, hn, hp, htc, hid⟩ := h
  unfold openaiMessageFromUnified
  rw [if_neg hc, htc, hn, hid]
  rfl

theorem oai_msg_roundtrip (m : UnifiedMessage) (h : PlainChatMsg m) :
    openaiMessageToUnified (openaiMessageFromUnified m) = m := by
  obtain ⟨hr, hc, hn, hp, htc, hid⟩ := h
  rw [openaiMessageFromUnified_plain m ⟨hr, hc, hn, hp, htc, hid⟩]
  rw [openaiMessageToUnified_plain _ ⟨hr, hc, rfl, rfl, rfl, rfl⟩]
  exact UnifiedMessage.ext rfl rfl hn.symm hp.symm htc.symm hid.symm

theorem claudeMessageFromUnified_plain (m : UnifiedMessage) (h : PlainChatMsg m) :
    claudeMessageFromUnified m = { role := m.role, content := .str m.content } := by
  obtain ⟨hr, hc, hn, hp, htc, hid⟩ := h
  unfold claudeMessageFromUnified
  rw [if_pos ⟨hc, by rw [hp]; rfl, by rw [htc]; rfl⟩]
  rfl

theorem claudeMessageToUnified_str (role s : String) :
    claudeMessageToUnified { role := role, content := .str s } =
      { role := role, content := s } := by
  unfold claudeMessageToUnified
  have hs : ({ role := role, content := ClaudeMessageContent.str s } :
      ClaudeMessage).isStringContent = true := rfl
  rw [if_pos hs]
  rfl

theorem claude_msg_roundtrip (m : UnifiedMessage) (h : PlainChatMsg m) :
    claudeMessageToUnified (claudeMessageFromUnified m) = m := by
  obtain ⟨hr, hc, hn, hp, htc, hid⟩ := h
  rw [claudeMessageFromUnified_plain m ⟨hr, hc, hn, hp, htc, hid⟩,
      claudeMessageToUnified_str]
  exact UnifiedMessage.ext rfl rfl hn.symm hp.symm htc.symm hid.symm

theorem unifiedMessageToGeminiContent_plain (m : UnifiedMessage) (h : PlainChatMsg m) :
    unifiedMessageToGeminiContent m =
      { role := convertUnifiedRoleToGemini m.role, parts := [{ text := m.content }] } := by
  obtain ⟨hr, hc, hn, hp, htc, hid⟩ := h
  unfold unifiedMessageToGeminiContent
  rw [if_pos hc, hp, htc]
  rfl

theorem extractText_singleton (text : String) (htext : text ≠ "") :
    extractTextFromParts [{ text := text }] = text := by
  unfold extractTextFromParts
  simp only [List.foldl_cons, List.foldl_nil]
  rw [if_pos htext]
  exact String.empty_append text

theorem geminiContentToUnifiedMessage_text (role text : String) (htext : text ≠ "") :
    geminiContentToUnifiedMessage { role := role, parts := [{ text := text }] } =
      { role := convertGeminiRoleToUnified role, content := text } := by
  unfold geminiContentToUnifiedMessage
  split
  · refine UnifiedMessage.ext rfl ?_ rfl ?_ ?_ rfl
    · simpa using extractText_singleton text htext
    · simp [htext]
    · simp
  · simp at *

theorem gemini_msg_roundtrip (m : UnifiedMessage) (h : PlainChatMsg m) :
    geminiContentToUnifiedMessage (unifiedMessageToGeminiContent m) = m := by
  obtain ⟨hr, hc, hn, hp, htc, hid⟩ := h
  rw [unifiedMessageToGeminiContent_plain m ⟨hr, hc, hn, hp, htc, hid⟩,
      geminiContentToUnifiedMessage_text _ _ hc, role_gem_round m.role hr]
  exact UnifiedMessage.ext rfl rfl hn.symm hp.symm htc.symm hid.symm

theorem string_length_pos_of_ne (s : String) (h : s ≠ "") : 0 < s.length := by
  by_contra hc
  have h0 : s.length = 0 := Nat.eq_zero_of_not_pos hc
  have hd : s.data = [] := List.length_eq_zero.mp h0
  exact h (String.ext hd)

theorem string_ne_empty_of_length_pos (s : String) (h : 0 < s.length) : s ≠ "" := by
  intro hs
  rw [hs] at h
  exact absurd h (by decide)

theorem extract_foldl_length (rest : List GeminiPart) (acc : String) :
    acc.length ≤ (rest.foldl
      (fun text part => if part.text ≠ "" then text ++ part.text else text) acc).length := by
  induction rest generalizing acc with
  | nil => simp
  | cons q qs ih =>
    simp only [List.foldl_cons]
    refine le_trans ?_ (ih _)
    by_cases hq : q.text ≠ ""
    · rw [if_pos hq, String.length_append]
      omega
    · rw [if_neg hq]

theorem extractText_ne_empty (parts : List GeminiPart) (hne : parts ≠ [])
    (hall : ∀ p ∈ parts, p.text ≠ "") : extractTextFromParts parts ≠ "" := by
  cases parts with
  | nil => exact absurd rfl hne
  | cons p rest =>
    have hp : p.text ≠ "" := hall p (by simp)
    apply string_ne_empty_of_length_pos
    unfold extractTextFromParts
    simp only [List.foldl_cons]
    rw [if_pos hp, String.empty_append]
    exact lt_of_lt_of_le (string_length_pos_of_ne p.text hp) (extract_foldl_length rest p.text)

theorem plain_openaiMessageToUnified (m : OAIChatCompletionMessage) (h : SimpleOAIMsg m) :
    PlainChatMsg (openaiMessageToUnified m) := by
  rw [openaiMessageToUnified_plain m h]
  exact ⟨h.1, h.2.1, rfl, rfl, rfl, rfl⟩

theorem claudeMessageToUnified_of_string (m : ClaudeMessage) (hs : m.isStringContent = true) :
    claudeMessageToUnified m = { role := m.role, content := m.getStringContent } := by
  unfold claudeMessageToUnified
  rw [if_pos hs]

theorem plain_claudeMessageToUnified (m : ClaudeMessage) (h : SimpleClaudeMsg m) :
    PlainChatMsg (claudeMessageToUnified m) := by
  rw [claudeMessageToUnified_of_string m h.2.1]
  exact ⟨h.1, h.2.2, rfl, rfl, rfl, rfl⟩

theorem geminiContentToUnifiedMessage_simple (c : GeminiChatContent)
    (h : SimpleGemContent c) :
    geminiContentToUnifiedMessage c =
      { role := convertGeminiRoleToUnified c.role,
        content := extractTextFromParts c.parts } := by
  obtain ⟨hr, hne, hparts⟩ := h
  unfold geminiContentToUnifiedMessage
  rw [if_pos (List.length_pos.mpr hne)]
  refine UnifiedMessage.ext rfl rfl rfl ?_ ?_ rfl
  · show (c.parts.filterMap (fun (part : GeminiPart) =>
        if part.text = "" then convertGeminiPartToUnified part else none)) = []
    refine List.filterMap_eq_nil_iff.mpr ?_
    intro part hpart
    rw [if_neg (hparts part hpart).1]
  · show (c.parts.filterMap (fun (part : GeminiPart) =>
        match part.functionCall with
        | some fc => some ({ id := generateToolCallID, type := "function",
                             name := fc.functionName,
                             arguments := convertAnyToMap fc.arguments } : UnifiedToolCall)
        | none => none)) = []
    refine List.filterMap_eq_nil_iff.mpr ?_
    intro part hpart
    rw [(hparts part hpart).2.2.2]

theorem plain_geminiContentToUnifiedMessage (c : GeminiChatContent)
    (h : SimpleGemContent c) : PlainChatMsg (geminiContentToUnifiedMessage c) := by
  rw [geminiContentToUnifiedMessage_simple c h]
  exact ⟨role_gem_chat c.role h.1,
         extractText_ne_empty c.parts h.2.1 (fun p hp => (h.2.2 p hp).1),
         rfl, rfl, rfl, rfl⟩

theorem openaiValidate_of_filled (p : ChatCompletionRequest) (hm : p.model ≠ "")
    (hne : p.messages ≠ []) : openaiValidateRequest p = none := by
  unfold openaiValidateRequest
  rw [if_neg hm, if_neg (fun hh => hne (List.length_eq_zero.mp hh))]

theorem geminiValidate_of_filled (p : GeminiChatRequest) (hne : p.contents ≠ []) :
    geminiValidateRequest p = none := by
  unfold geminiValidateRequest
  rw [if_neg (fun hh => hne (List.length_eq_zero.mp hh))]

theorem claudeValidate_of_filled (p : ClaudeRequest) (hm : p.model ≠ "")
    (hne : p.messages ≠ []) (hmax : p.maxTokens ≠ 0) :
    claudeValidateRequest p = none := by
  unfold claudeValidateRequest
  rw [if_neg hm, if_neg (fun hh => hne (List.length_eq_zero.mp hh.1)), if_neg hmax]

theorem roundIR_messages_oai (u : UnifiedRequest) (hm : u.model ≠ "")
    (hne : u.messages ≠ []) (hplain : ∀ m ∈ u.messages, PlainChatMsg m) :
    ∃ u', openaiToUnified (openaiFromUnified u) = .ok u' ∧ u'.messages = u.messages := by
  have hv : openaiValidateRequest (openaiFromUnified u) = none := by
    apply openaiValidate_of_filled
    · exact hm
    · show u.messages.map openaiMessageFromUnified ≠ []
      exact fun hh => hne (List.map_eq_nil_iff.mp hh)
  refine ⟨openaiMapToIR (openaiFromUnified u), ?_, ?_⟩
  · unfold openaiToUnified
    rw [hv]
  · show ((u.messages.map openaiMessageFromUnified).map openaiMessageToUnified) = u.messages
    exact map_roundtrip _ _ _ (fun m hm' => oai_msg_roundtrip m (hplain m hm'))

theorem roundIR_messages_gemini (u : UnifiedRequest)
    (hne : u.messages ≠ []) (hplain : ∀ m ∈ u.messages, PlainChatMsg m) :
    ∃ u', geminiToUnified (geminiFromUnified u) = .ok u' ∧ u'.messages = u.messages := by
  have hv : geminiValidateRequest (geminiFromUnified u) = none := by
    apply geminiValidate_of_filled
    show u.messages.map unifiedMessageToGeminiContent ≠ []
    exact fun hh => hne (List.map_eq_nil_iff.mp hh)
  refine ⟨geminiMapToIR (geminiFromUnified u), ?_, ?_⟩
  · unfold geminiToUnified
    rw [hv]
  · show ((u.messages.map unifiedMessageToGeminiContent).map
      geminiContentToUnifiedMessage) = u.messages
    exact map_roundtrip _ _ _ (fun m hm' => gemini_msg_roundtrip m (hplain m hm'))

theorem roundIR_messages_claude (u : UnifiedRequest) (hm : u.model ≠ "")
    (hne : u.messages ≠ []) (hplain : ∀ m ∈ u.messages, PlainChatMsg m)
    (hmax : goUintOfInt u.maxTokens ≠ 0) :
    ∃ u', claudeToUnified (claudeFromUnified u) = .ok u' ∧ u'.messages = u.messages := by
  have hv : claudeValidateRequest (claudeFromUnified u) = none := by
    apply claudeValidate_of_filled
    · exact hm
    · show u.messages.map claudeMessageFromUnified ≠ []
      exact fun hh => hne (List.map_eq_nil_iff.mp hh)
    · exact hmax
  refine ⟨claudeMapToIR (claudeFromUnified u), ?_, ?_⟩
  · unfold claudeToUnified
    rw [hv]
  · show (if ((claudeFromUnified u).prompt ≠ "") then
        [({ role := "user", content := (claudeFromUnified u).prompt } : UnifiedMessage)]
      else []) ++ ((claudeFromUnified u).messages.map claudeMessageToUnified) = u.messages
    rw [if_neg (fun hh => hh rfl)]
    rw [List.nil_append]
    show ((u.messages.map claudeMessageFromUnified).map claudeMessageToUnified) = u.messages
    exact map_roundtrip _ _ _ (fun m hm' => claude_msg_roundtrip m (hplain m hm'))

theorem openaiToUnified_simple (p : ChatCompletionRequest) (h : SimpleOAI p) :
    ∃ u, openaiToUnified p = .ok u ∧
      u.messages = p.messages.map openaiMessageToUnified ∧
      u.model = p.model ∧ u.maxTokens = p.maxTokens := by
  obtain ⟨hm, hne, hplain, h0, h1, hmc⟩ := h
  have hv : openaiValidateRequest p = none := openaiValidate_of_filled p hm hne
  refine ⟨openaiMapToIR p, ?_, rfl, rfl, ?_⟩
  · unfold openaiToUnified
    rw [hv]
  · show (if p.maxCompletionTokens > 0 then p.maxCompletionTokens else p.maxTokens) =
      p.maxTokens
    rw [hmc, if_neg (by norm_num)]

theorem claudeToUnified_simple (p : ClaudeRequest) (h : SimpleClaude p) :
    ∃ u, claudeToUnified p = .ok u ∧
      u.messages = p.messages.map claudeMessageToUnified ∧ u.model = p.model := by
  obtain ⟨hm, hp, hne, hmsgs, hmax⟩ := h
  have hv : claudeValidateRequest p = none := claudeValidate_of_filled p hm hne hmax
  refine ⟨claudeMapToIR p, ?_, ?_, rfl⟩
  · unfold claudeToUnified
    rw [hv]
  · show (if (p.prompt ≠ "") then
        [({ role := "user", content := p.prompt } : UnifiedMessage)] else []) ++
      (p.messages.map claudeMessageToUnified) = p.messages.map claudeMessageToUnified
    rw [if_neg (fun hh => hh hp), List.nil_append]

theorem geminiToUnified_simple (p : GeminiChatRequest) (h : SimpleGem p) :
    ∃ u, geminiToUnified p = .ok u ∧
      u.messages = p.contents.map geminiContentToUnifiedMessage ∧
      u.model = "gemini" ∧ u.maxTokens = goIntOfUint p.generationConfig.maxOutputTokens := by
  obtain ⟨hne, hcontents, h0, h1⟩ := h
  have hv : geminiValidateRequest p = none := geminiValidate_of_filled p hne
  refine ⟨geminiMapToIR p, ?_, rfl, rfl, ?_⟩
  · unfold geminiToUnified
    rw [hv]
  · show (if p.generationConfig.maxOutputTokens > 0 then
      goIntOfUint p.generationConfig.maxOutputTokens else 0) = _
    rw [if_pos h0]

theorem oaiSig_fromIR (u' : UnifiedRequest) :
    oaiSig (openaiFromUnified u') = u'.messages.map (fun m => (m.role, m.content)) := by
  show ((u'.messages.map openaiMessageFromUnified).map
    (fun m => (m.role, m.content))) = _
  rw [List.map_map]
  rfl

theorem claudeSig_fromIR (u' : UnifiedRequest)
    (hplain : ∀ m ∈ u'.messages, PlainChatMsg m) :
    claudeSig (claudeFromUnified u') = u'.messages.map (fun m => (m.role, m.content)) := by
  show ((u'.messages.map claudeMessageFromUnified).map
    (fun m => (m.role, m.getStringContent))) = _
  rw [List.map_map]
  apply List.map_congr_left
  intro m hm
  simp only [Function.comp_apply]
  rw [claudeMessageFromUnified_plain m (hplain m hm)]
  rfl

theorem gemSig_fromIR (u' : UnifiedRequest)
    (hplain : ∀ m ∈ u'.messages, PlainChatMsg m) :
    gemSig (geminiFromUnified u') =
      u'.messages.map (fun m => (convertUnifiedRoleToGemini m.role, m.content)) := by
  show ((u'.messages.map unifiedMessageToGeminiContent).map
    (fun c => (c.role, extractTextFromParts c.parts))) = _
  rw [List.map_map]
  apply List.map_congr_left
  intro m hm
  simp only [Function.comp_apply]
  rw [unifiedMessageToGeminiContent_plain m (hplain m hm)]
  show (convertUnifiedRoleToGemini m.role,
    extractTextFromParts [{ text := m.content }]) = _
  rw [extractText_singleton m.content (hplain m hm).2.1]

theorem oai_mapToIR_fromIR (u : UnifiedRequest) (h : SimpleIR u) :
    openaiMapToIR (openaiFromUnified u) = u := by
  obtain ⟨hm, hne, hplain, hmax0, hmax1, hsys, htemp, htop, hstream, htools, htc,
    hstop, hrf, hseed, hfp, hpp, huser⟩ := h
  simp only [openaiMapToIR, openaiFromUnified]
  refine UnifiedRequest.ext ?_ ?_ ?_ ?_ ?_ ?_ ?_ ?_ ?_ ?_ ?_ ?_ ?_ ?_ ?_
  · rfl
  · exact map_roundtrip _ _ _ (fun m hm' => oai_msg_roundtrip m (hplain m hm'))
  · exact hsys.symm
  · norm_num
  · rw [htemp]
    simp
  · rw [htop]
    simp
  · rfl
  · rw [htools]
    rfl
  · rw [htc]
    simp
  · rfl
  · rw [hrf]
  · rfl
  · rw [hfp]
    simp
  · rw [hpp]
    simp
  · rfl

theorem gemini_mapToIR_fromIR (u : UnifiedRequest) (h : SimpleIR u) :
    geminiMapToIR (geminiFromUnified u) = { u with model := "gemini" } := by
  obtain ⟨hm, hne, hplain, hmax0, hmax1, hsys, htemp, htop, hstream, htools, htc,
    hstop, hrf, hseed, hfp, hpp, huser⟩ := h
  simp only [geminiMapToIR, geminiFromUnified]
  refine UnifiedRequest.ext ?_ ?_ ?_ ?_ ?_ ?_ ?_ ?_ ?_ ?_ ?_ ?_ ?_ ?_ ?_
  · rfl
  · exact map_roundtrip _ _ _ (fun m hm' => gemini_msg_roundtrip m (hplain m hm'))
  · rw [hsys]
    simp
  · rw [if_pos hmax0,
        if_pos (Nat.pos_of_ne_zero (goUintOfInt_ne_zero hmax0 hmax1))]
    exact goUintOfInt_roundtrip hmax0 hmax1
  · rfl
  · rw [htop]
    simp
  · exact hstream.symm
  · rw [htools]
    rfl
  · exact htc.symm
  · rfl
  · exact hrf.symm
  · rw [hseed]
    simp
  · exact hfp.symm
  · exact hpp.symm
  · exact huser.symm

theorem claude_mapToIR_fromIR (u : UnifiedRequest) (h : SimpleIR u) :
    claudeMapToIR (claudeFromUnified u) = { u with topP := some 0, maxTokens := 0 } := by
  obtain ⟨hm, hne, hplain, hmax0, hmax1, hsys, htemp, htop, hstream, htools, htc,
    hstop, hrf, hseed, hfp, hpp, huser⟩ := h
  simp only [claudeMapToIR, claudeFromUnified]
  refine UnifiedRequest.ext ?_ ?_ ?_ ?_ ?_ ?_ ?_ ?_ ?_ ?_ ?_ ?_ ?_ ?_ ?_
  · rfl
  · rw [if_neg (fun hh => hh rfl), List.nil_append]
    exact map_roundtrip _ _ _ (fun m hm' => claude_msg_roundtrip m (hplain m hm'))
  · rw [hsys]
    simp
  · rfl
  · rfl
  · rw [htop]
  · rfl
  · rw [htools]
    rfl
  · rw [htc]
    simp
  · rfl
  · exact hrf.symm
  · exact hseed.symm
  · exact hfp.symm
  · exact hpp.symm
  · exact huser.symm

theorem claudeFromUnified_of_roundtrip (u : UnifiedRequest) (htop : u.topP = none) :
    claudeFromUnified { u with topP := some 0, maxTokens := 0 } =
      { claudeFromUnified u with maxTokens := 0 } := by
  simp only [claudeFromUnified]
  refine ClaudeRequest.ext ?_ ?_ ?_ ?_ ?_ ?_ ?_ ?_ ?_ ?_ ?_
  · rfl
  · rfl
  · rfl
  · rfl
  · rfl
  · rfl
  · rw [htop]
  · rfl
  · rfl
  · rfl
  · rfl

/-- **C1 counterexample**: on the simple IR request
`{model := "m", messages := [user "Hi"], maxTokens := 5}` the Claude
adapter violates `fromIR(toIR(fromIR(ir))) = fromIR(ir)`: its `ToUnified`
never copies `MaxTokens` back into the IR, so the second `fromIR` emits
`max_tokens = 0` where the first emitted `5`. -/
theorem claude_fromIR_toIR_fromIR_not_idempotent :
    (claudeToUnified (claudeFromUnified
        { model := "m", messages := [{ role := "user", content := "Hi" }],
          maxTokens := 5 })).map claudeFromUnified ≠
      .ok (claudeFromUnified
        { model := "m", messages := [{ role := "user", content := "Hi" }],
          maxTokens := 5 }) ∧
    (claudeFromUnified
        { model := "m", messages := [{ role := "user", content := "Hi" }],
          maxTokens := 5 }).maxTokens = 5 := by
  exact ⟨by decide, by decide⟩

/-- **C1 amended**: for IR requests built only from a model id,
plain-text `user`/`assistant` messages and a positive, representable
max-token budget, `fromIR ∘ toIR ∘ fromIR = fromIR` holds for the OpenAI
and Gemini adapters; for the Claude adapter it holds up to the max-token
budget, which `toIR` drops (the final request carries `max_tokens = 0`).
And every pipeline A→IR→B→IR→A over such payloads succeeds and preserves
the message count, role sequence and text content exactly (the
`system`/`tool` roles are excluded: Gemini maps `system` to `user`,
which the spec itself documents as lossy). -/
theorem request_round_trip_amended :
    (∀ u : UnifiedRequest, SimpleIR u →
      (openaiToUnified (openaiFromUnified u)).map openaiFromUnified =
        .ok (openaiFromUnified u)) ∧
    (∀ u : UnifiedRequest, SimpleIR u →
      (geminiToUnified (geminiFromUnified u)).map geminiFromUnified =
        .ok (geminiFromUnified u)) ∧
    (∀ u : UnifiedRequest, SimpleIR u →
      (claudeToUnified (claudeFromUnified u)).map claudeFromUnified =
        .ok { claudeFromUnified u with maxTokens := 0 }) ∧
    (∀ p : ChatCompletionRequest, SimpleOAI p →
      ∃ p', (openaiToUnified p).bind (fun v =>
          (geminiToUnified (geminiFromUnified v)).map openaiFromUnified) = .ok p' ∧
        oaiSig p' = oaiSig p) ∧
    (∀ p : ChatCompletionRequest, SimpleOAI p →
      ∃ p', (openaiToUnified p).bind (fun v =>
          (claudeToUnified (claudeFromUnified v)).map openaiFromUnified) = .ok p' ∧
        oaiSig p' = oaiSig p) ∧
    (∀ p : GeminiChatRequest, SimpleGem p →
      ∃ p', (geminiToUnified p).bind (fun v =>
          (openaiToUnified (openaiFromUnified v)).map geminiFromUnified) = .ok p' ∧
        gemSig p' = gemSig p) ∧
    (∀ p : GeminiChatRequest, SimpleGem p →
      ∃ p', (geminiToUnified p).bind (fun v =>
          (claudeToUnified (claudeFromUnified v)).map geminiFromUnified) = .ok p' ∧
        gemSig p' = gemSig p) ∧
    (∀ p : ClaudeRequest, SimpleClaude p →
      ∃ p', (claudeToUnified p).bind (fun v =>
          (openaiToUnified (openaiFromUnified v)).map claudeFromUnified) = .ok p' ∧
        claudeSig p' = claudeSig p) ∧
    (∀ p : ClaudeRequest, SimpleClaude p →
      ∃ p', (claudeToUnified p).bind (fun v =>
          (geminiToUnified (geminiFromUnified v)).map claudeFromUnified) = .ok p' ∧
        claudeSig p' = claudeSig p) := by
  refine ⟨?_, ?_, ?_, ?_, ?_, ?_, ?_, ?_, ?_⟩
  · -- OpenAI idempotence
    intro u h
    have hv : openaiValidateRequest (openaiFromUnified u) = none := by
      apply openaiValidate_of_filled
      · exact h.1
      · show u.messages.map openaiMessageFromUnified ≠ []
        exact fun hh => h.2.1 (List.map_eq_nil_iff.mp hh)
    have h1 : openaiToUnified (openaiFromUnified u) = .ok u := by
      unfold openaiToUnified
      rw [hv, oai_mapToIR_fromIR u h]
    rw [h1]
    rfl
  · -- Gemini idempotence
    intro u h
    have hv : geminiValidateRequest (geminiFromUnified u) = none := by
      apply geminiValidate_of_filled
      show u.messages.map unifiedMessageToGeminiContent ≠ []
      exact fun hh => h.2.1 (List.map_eq_nil_iff.mp hh)
    have h1 : geminiToUnified (geminiFromUnified u) = .ok { u with model := "gemini" } := by
      unfold geminiToUnified
      rw [hv, gemini_mapToIR_fromIR u h]
    rw [h1]
    rfl
  · -- Claude: idempotent except the dropped max-token budget
    intro u h
    have hv : claudeValidateRequest (claudeFromUnified u) = none := by
      apply claudeValidate_of_filled
      · exact h.1
      · show u.messages.map claudeMessageFromUnified ≠ []
        exact fun hh => h.2.1 (List.map_eq_nil_iff.mp hh)
      · exact goUintOfInt_ne_zero h.2.2.2.1 h.2.2.2.2.1
    have h1 : claudeToUnified (claudeFromUnified u) =
        .ok { u with topP := some 0, maxTokens := 0 } := by
      unfold claudeToUnified
      rw [hv, claude_mapToIR_fromIR u h]
    rw [h1]
    show Except.ok (claudeFromUnified { u with topP := some 0, maxTokens := 0 }) = _
    rw [claudeFromUnified_of_roundtrip u h.2.2.2.2.2.2.2.1]
  · -- OpenAI → Gemini → OpenAI
    intro p h
    obtain ⟨uA, hA, hmsgs, hmodel, hmax⟩ := openaiToUnified_simple p h
    have hplainU : ∀ m ∈ uA.messages, PlainChatMsg m := by
      rw [hmsgs]
      intro m hm
      obtain ⟨m0, hm0, rfl⟩ := List.mem_map.mp hm
      exact plain_openaiMessageToUnified m0 (h.2.2.1 m0 hm0)
    have hneU : uA.messages ≠ [] := by
      rw [hmsgs]
      exact fun hh => h.2.1 (List.map_eq_nil_iff.mp hh)
    obtain ⟨uB, hB, hBmsgs⟩ := roundIR_messages_gemini uA hneU hplainU
    refine ⟨openaiFromUnified uB, ?_, ?_⟩
    · rw [hA]
      show (geminiToUnified (geminiFromUnified uA)).map openaiFromUnified = _
      rw [hB]
      rfl
    · rw [oaiSig_fromIR uB, hBmsgs, hmsgs, List.map_map]
      rfl
  · -- OpenAI → Claude → OpenAI
    intro p h
    obtain ⟨uA, hA, hmsgs, hmodel, hmax⟩ := openaiToUnified_simple p h
    have hplainU : ∀ m ∈ uA.messages, PlainChatMsg m := by
      rw [hmsgs]
      intro m hm
      obtain ⟨m0, hm0, rfl⟩ := List.mem_map.mp hm
      exact plain_openaiMessageToUnified m0 (h.2.2.1 m0 hm0)
    have hneU : uA.messages ≠ [] := by
      rw [hmsgs]
      exact fun hh => h.2.1 (List.map_eq_nil_iff.mp hh)
    have hmodelU : uA.model ≠ "" := by
      rw [hmodel]
      exact h.1
    have hmaxU : goUintOfInt uA.maxTokens ≠ 0 := by
      rw [hmax]
      exact goUintOfInt_ne_zero h.2.2.2.1 h.2.2.2.2.1
    obtain ⟨uB, hB, hBmsgs⟩ := roundIR_messages_claude uA hmodelU hneU hplainU hmaxU
    refine ⟨openaiFromUnified uB, ?_, ?_⟩
    · rw [hA]
      show (claudeToUnified (claudeFromUnified uA)).map openaiFromUnified = _
      rw [hB]
      rfl
    · rw [oaiSig_fromIR uB, hBmsgs, hmsgs, List.map_map]
      rfl
  · -- Gemini → OpenAI → Gemini
    intro p h
    obtain ⟨uA, hA, hmsgs, hmodel, hmax⟩ := geminiToUnified_simple p h
    have hplainU : ∀ m ∈ uA.messages, PlainChatMsg m := by
      rw [hmsgs]
      intro m hm
      obtain ⟨c0, hc0, rfl⟩ := List.mem_map.mp hm
      exact plain_geminiContentToUnifiedMessage c0 (h.2.1 c0 hc0)
    have hneU : uA.messages ≠ [] := by
      rw [hmsgs]
      exact fun hh => h.1 (List.map_eq_nil_iff.mp hh)
    have hmodelU : uA.model ≠ "" := by
      rw [hmodel]
      decide
    obtain ⟨uB, hB, hBmsgs⟩ := roundIR_messages_oai uA hmodelU hneU hplainU
    have hplainB : ∀ m ∈ uB.messages, PlainChatMsg m := by
      rw [hBmsgs]
      exact hplainU
    refine ⟨geminiFromUnified uB, ?_, ?_⟩
    · rw [hA]
      show (openaiToUnified (openaiFromUnified uA)).map geminiFromUnified = _
      rw [hB]
      rfl
    · rw [gemSig_fromIR uB hplainB, hBmsgs, hmsgs, List.map_map]
      apply List.map_congr_left
      intro c hc
      simp only [Function.comp_apply]
      rw [geminiContentToUnifiedMessage_simple c (h.2.1 c hc)]
      show (convertUnifiedRoleToGemini (convertGeminiRoleToUnified c.role),
        extractTextFromParts c.parts) = _
      rw [role_gem_round' c.role (h.2.1 c hc).1]
  · -- Gemini → Claude → Gemini
    intro p h
    obtain ⟨uA, hA, hmsgs, hmodel, hmax⟩ := geminiToUnified_simple p h
    have hplainU : ∀ m ∈ uA.messages, PlainChatMsg m := by
      rw [hmsgs]
      intro m hm
      obtain ⟨c0, hc0, rfl⟩ := List.mem_map.mp hm
      exact plain_geminiContentToUnifiedMessage c0 (h.2.1 c0 hc0)
    have hneU : uA.messages ≠ [] := by
      rw [hmsgs]
      exact fun hh => h.1 (List.map_eq_nil_iff.mp hh)
    have hmodelU : uA.model ≠ "" := by
      rw [hmodel]
      decide
    have hmax' : uA.maxTokens = (p.generationConfig.maxOutputTokens : Int) := by
      rw [hmax]
      exact goIntOfUint_small_eq h.2.2.2
    have hmaxU : goUintOfInt uA.maxTokens ≠ 0 := by
      rw [hmax']
      exact goUintOfInt_ne_zero (by exact_mod_cast h.2.2.1) h.2.2.2
    obtain ⟨uB, hB, hBmsgs⟩ := roundIR_messages_claude uA hmodelU hneU hplainU hmaxU
    have hplainB : ∀ m ∈ uB.messages, PlainChatMsg m := by
      rw [hBmsgs]
      exact hplainU
    refine ⟨geminiFromUnified uB, ?_, ?_⟩
    · rw [hA]
      show (claudeToUnified (claudeFromUnified uA)).map geminiFromUnified = _
      rw [hB]
      rfl
    · rw [gemSig_fromIR uB hplainB, hBmsgs, hmsgs, List.map_map]
      apply List.map_congr_left
      intro c hc
      simp only [Function.comp_apply]
      rw [geminiContentToUnifiedMessage_simple c (h.2.1 c hc)]
      show (convertUnifiedRoleToGemini (convertGeminiRoleToUnified c.role),
        extractTextFromParts c.parts) = _
      rw [role_gem_round' c.role (h.2.1 c hc).1]
  · -- Claude → OpenAI → Claude
    intro p h
    obtain ⟨uA, hA, hmsgs, hmodel⟩ := claudeToUnified_simple p h
    have hplainU : ∀ m ∈ uA.messages, PlainChatMsg m := by
      rw [hmsgs]
      intro m hm
      obtain ⟨m0, hm0, rfl⟩ := List.mem_map.mp hm
      exact plain_claudeMessageToUnified m0 (h.2.2.2.1 m0 hm0)
    have hneU : uA.messages ≠ [] := by
      rw [hmsgs]
      exact fun hh => h.2.2.1 (List.map_eq_nil_iff.mp hh)
    have hmodelU : uA.model ≠ "" := by
      rw [hmodel]
      exact h.1
    obtain ⟨uB, hB, hBmsgs⟩ := roundIR_messages_oai uA hmodelU hneU hplainU
    have hplainB : ∀ m ∈ uB.messages, PlainChatMsg m := by
      rw [hBmsgs]
      exact hplainU
    refine ⟨claudeFromUnified uB, ?_, ?_⟩
    · rw [hA]
      show (openaiToUnified (openaiFromUnified uA)).map claudeFromUnified = _
      rw [hB]
      rfl
    · rw [claudeSig_fromIR uB hplainB, hBmsgs, hmsgs, List.map_map]
      apply List.map_congr_left
      intro m hm
      simp only [Function.comp_apply]
      rw [claudeMessageToUnified_of_string m (h.2.2.2.1 m hm).2.1]
  · -- Claude → Gemini → Claude
    intro p h
    obtain ⟨uA, hA, hmsgs, hmodel⟩ := claudeToUnified_simple p h
    have hplainU : ∀ m ∈ uA.messages, PlainChatMsg m := by
      rw [hmsgs]
      intro m hm
      obtain ⟨m0, hm0, rfl⟩ := List.mem_map.mp hm
      exact plain_claudeMessageToUnified m0 (h.2.2.2.1 m0 hm0)
    have hneU : uA.messages ≠ [] := by
      rw [hmsgs]
      exact fun hh => h.2.2.1 (List.map_eq_nil_iff.mp hh)
    obtain ⟨uB, hB, hBmsgs⟩ := roundIR_messages_gemini uA hneU hplainU
    have hplainB : ∀ m ∈ uB.messages, PlainChatMsg m := by
      rw [hBmsgs]
      exact hplainU
    refine ⟨claudeFromUnified uB, ?_, ?_⟩
    · rw [hA]
      show (geminiToUnified (geminiFromUnified uA)).map claudeFromUnified = _
      rw [hB]
      rfl
    · rw [claudeSig_fromIR uB hplainB, hBmsgs, hmsgs, List.map_map]
      apply List.map_congr_left
      intro m hm
      simp only [Function.comp_apply]
      rw [claudeMessageToUnified_of_string m (h.2.2.2.1 m hm).2.1]

/-- **C1 amended witness**: concrete instantiations — OpenAI idempotence
on a two-message IR, and the OpenAI→Gemini→OpenAI pipeline on a concrete
payload preserves the signature. -/
theorem request_round_trip_amended_witness :
    (openaiToUnified (openaiFromUnified
        { model := "m",
          messages := [{ role := "user", content := "Hi" },
                       { role := "assistant", content := "Hello!" }],
          maxTokens := 50 })).map openaiFromUnified =
      .ok (openaiFromUnified
        { model := "m",
          messages := [{ role := "user", content := "Hi" },
                       { role := "assistant", content := "Hello!" }],
          maxTokens := 50 }) :=
  request_round_trip_amended.1
    { model := "m",
      messages := [{ role := "user", content := "Hi" },
                   { role := "assistant", content := "Hello!" }],
      maxTokens := 50 }
    (by decide)
